import Mathlib

/-!
Verification development for the SBGNML renderer (`src/main.rs`).

The renderer is embedded shallowly:

* All pixel geometry is carried in `ℚ`.  The source works in `f64`, but every
  quantity the claims touch is produced by `+ - * / min max abs` on literals,
  which `f64` and `ℚ` agree on for these magnitudes; the one place the source
  computes a square root (arc decoration direction vectors) is embedded
  separately over `ℝ` (`triangle_points` below).
* Cairo drawing calls are reified as a trace of `Op` values; a drawing
  function of the source becomes a Lean function returning `List Op` in the
  exact order the source issues the calls.  Path calls whose coordinates are
  irrational (triangle heads, inhibition bars, the pulled-back catalysis
  circle) are reified as single path ops carrying the exact arguments the
  source computes them from; their pointwise geometry is the `ℝ`-level
  `triangle_points`.  Arc angles are recorded in units of π (`2` = TAU).
* Pango text measurement is an external collaborator; it is passed in as a
  `TextMeasure` function returning the layout's `pixel_size()`.
* The glyph forest: `parse_glyph_node` produces glyphs nested by XML
  structure (`parent_id` is set exactly for non-top-level glyphs), so the
  parsed structure is modelled as a forest `GForest`; the flat glyph vector
  of the source is the preorder traversal of that forest, roots are the
  top-level trees, and the glyphs with a parent are exactly the non-root
  glyphs in preorder.
-/

namespace RenderSbgn

/-- An RGB color, each channel a rational in [0,1] (the source divides byte
values by 255.0). -/
abbrev Color := ℚ × ℚ × ℚ

/-- A 2-D point in pixel or data space (source `struct Point`). -/
structure Point where
  x : ℚ
  y : ℚ
  deriving DecidableEq, Repr

instance : Inhabited Point := ⟨⟨0, 0⟩⟩

/-- A data-space bounding box (source `struct BBox`). -/
structure BBox where
  x : ℚ
  y : ℚ
  w : ℚ
  h : ℚ
  deriving DecidableEq, Repr

/-- A pixel-space rectangle with cached center (source `struct PixelRect`). -/
structure PixelRect where
  x0 : ℚ
  y0 : ℚ
  width : ℚ
  height : ℚ
  center : Point
  deriving DecidableEq, Repr

/-- A parsed glyph (source `struct Glyph`).  The `parent_id` field of the
source is represented structurally by the glyph forest (`GForest`), exactly
as `parse_glyph_node` assigns it from XML nesting. -/
structure Glyph where
  id : String
  class_name : String
  bbox : Option BBox
  label : String
  ports : List Point
  has_clone : Bool
  state_value : Option String
  state_variable : Option String
  orientation : Option String
  deriving DecidableEq, Repr

/-- A parsed arc (source `struct Arc`). -/
structure Arc where
  class_name : String
  points : List Point
  deriving DecidableEq, Repr

/-- Data-space bounds of the whole diagram (source `struct Bounds`). -/
structure Bounds where
  min_x : ℚ
  max_x : ℚ
  min_y : ℚ
  max_y : ℚ
  deriving DecidableEq, Repr

/-- The affine data-to-pixel transform (source `struct Transform`). -/
structure Transform where
  min_x : ℚ
  min_y : ℚ
  scale_x : ℚ
  scale_y : ℚ
  deriving DecidableEq, Repr

/-! ## Constants (source lines 12–33) -/

def DEFAULT_PADDING_PX : ℚ := 10
def DEFAULT_LINE_WIDTH : ℚ := 3/2
def FONT_MAIN_PX : ℚ := 20
def FONT_SMALL_PX : ℚ := 12
def TEXT_OUTLINE_WIDTH : ℚ := 3/4
def ARROW_SIZE : ℚ := 8
def ARROW_SCALE : ℚ := 7/4
def BAR_LENGTH : ℚ := 12
def BAR_OFFSET : ℚ := 14
def catalysis_overlap_ratio : ℚ := 1/2
def PORT_CONNECTOR_LEN_PX : ℚ := 11
def LOGICAL_PORT_CONNECTOR_LEN_PX : ℚ := 20
def SHOW_PROCESS_DEBUG : Bool := false
def SHOW_LOGICAL_DEBUG_BBOX : Bool := false
def BORDER_COLOR : Color := (85/255, 85/255, 85/255)
def DEFAULT_FILL_COLOR : Color := (246/255, 246/255, 246/255)
def AUX_LINE_COLOR : Color := (106/255, 106/255, 106/255)
def ASSOCIATION_FILL_COLOR : Color := (107/255, 107/255, 107/255)
def clone_marker_height_ratio : ℚ := 3/10
def CLONE_MARKER_FILL_COLOR : Color := (41/50, 41/50, 41/50)
def CLONE_MARKER_STROKE_WIDTH : ℚ := 3/2
def WHITE_COLOR : Color := (1, 1, 1)

/-! ## Transform (source lines 116–144) -/

/-- Source `Transform::new`: spans are clamped below by 1.0 before dividing. -/
def Transform.new (min_x min_y max_x max_y width height : ℚ) : Transform :=
  let span_x := max |max_x - min_x| 1
  let span_y := max |max_y - min_y| 1
  { min_x := min_x, min_y := min_y,
    scale_x := width / span_x, scale_y := height / span_y }

/-- Source `Transform::map_point`. -/
def Transform.map_point (t : Transform) (x y : ℚ) : Point :=
  ⟨(x - t.min_x) * t.scale_x, (y - t.min_y) * t.scale_y⟩

/-- Source `Transform::map_size`. -/
def Transform.map_size (t : Transform) (w h : ℚ) : ℚ × ℚ :=
  (w * t.scale_x, h * t.scale_y)

/-- Source `Transform::scale_scalar`: multiplies by the smaller axis scale. -/
def Transform.scale_scalar (t : Transform) (value : ℚ) : ℚ :=
  value * min t.scale_x t.scale_y

/-- Source `bbox_pixel_rect` (lines 1998–2017): normalized pixel rectangle. -/
def bbox_pixel_rect (t : Transform) (bbox : BBox) : PixelRect :=
  let x0 := (bbox.x - t.min_x) * t.scale_x
  let x1 := (bbox.x + bbox.w - t.min_x) * t.scale_x
  let y0 := (bbox.y - t.min_y) * t.scale_y
  let y1 := (bbox.y + bbox.h - t.min_y) * t.scale_y
  let left := min x0 x1
  let right := max x0 x1
  let top := min y0 y1
  let bottom := max y0 y1
  { x0 := left, y0 := top, width := right - left, height := bottom - top,
    center := ⟨(left + right) / 2, (top + bottom) / 2⟩ }

/-- Source `transform_with_padding` (lines 2261–2274): padded transform and
canvas size. -/
def transform_with_padding (bounds : Bounds) (padding : ℚ) :
    Transform × ℚ × ℚ :=
  let min_x := bounds.min_x - padding
  let max_x := bounds.max_x + padding
  let min_y := bounds.min_y - padding
  let max_y := bounds.max_y + padding
  let width := max |max_x - min_x| 1
  let height := max |max_y - min_y| 1
  (Transform.new min_x min_y max_x max_y width height, width, height)

/-- Source `compute_bounds` (lines 2219–2258).  The source folds over
`f64::INFINITY`; with at least one coordinate this equals a fold over a
nonempty list, and with none it errors. -/
def compute_bounds (glyphs : List Glyph) : Except String Bounds :=
  let xs := glyphs.flatMap (fun g =>
    (match g.bbox with
     | some b => [b.x, b.x + b.w]
     | none => []) ++ g.ports.map (·.x))
  let ys := glyphs.flatMap (fun g =>
    (match g.bbox with
     | some b => [b.y, b.y + b.h]
     | none => []) ++ g.ports.map (·.y))
  match xs, ys with
  | [], _ => .error "No coordinates found in SBGN file"
  | _, [] => .error "No coordinates found in SBGN file"
  | x :: xrest, y :: yrest =>
    .ok { min_x := xrest.foldl min x, max_x := xrest.foldl max x,
          min_y := yrest.foldl min y, max_y := yrest.foldl max y }

/-! ## The reified drawing surface -/

/-- One cairo call on the drawing surface.  Path calls whose point
coordinates are irrational in general carry the exact arguments from which
the source computes them (`trianglePath end prev size`, `barPath`,
`tangentCirclePath`); everything else carries the literal coordinates.
`arcPath` records angles in units of π. -/
inductive Op where
  | setColor (c : Color)
  | setLineWidth (w : ℚ)
  | setLineCapSquare
  | paintAll
  | save
  | restore
  | clipPath
  | newPath
  | closePath
  | moveTo (p : Point)
  | lineTo (p : Point)
  | rectPath (x y w h : ℚ)
  | arcPath (c : Point) (r : ℚ) (a0 a1 : ℚ)
  | curveTo (c1 c2 p : Point)
  | translate (dx dy : ℚ)
  | scaleCtx (sx sy : ℚ)
  | stroke
  | strokePreserve
  | fill
  | fillPreserve
  | layoutPath (text : String) (font : ℚ)
  | trianglePath (e q : Point) (size : ℚ)
  | barPath (e q : Point) (length offset : ℚ)
  | tangentCirclePath (e q : Point) (r : ℚ)
  deriving DecidableEq, Repr

/-- The external text-shaping collaborator: `(text, font_px) ↦ pixel_size()`
of the pango layout (width, height). -/
def TextMeasure := String → ℚ → ℚ × ℚ

/-- Source `measure_text_width` (lines 1401–1409). -/
def measure_text_width (M : TextMeasure) (text : String) (font_px : ℚ) : ℚ :=
  (M text font_px).1

/-- Rust's `str::trim` (drop whitespace from both ends), embedded over the
string's character list so that it evaluates by reduction. -/
def strTrim (s : String) : String :=
  ⟨((s.data.dropWhile Char.isWhitespace).reverse.dropWhile
      Char.isWhitespace).reverse⟩

/-- Rust's `str::ends_with`, embedded over the character list so that it
evaluates by reduction. -/
def strEndsWith (s suffix : String) : Bool :=
  suffix.data.isSuffixOf s.data

/-- The string minus its last `suffix.length` characters: what Rust's
`strip_suffix` leaves once `strEndsWith` holds. -/
def strDropSuffix (s suffix : String) : String :=
  ⟨s.data.take (s.data.length - suffix.data.length)⟩

/-- Source `setup_context` (lines 161–168): the ops run on a fresh surface. -/
def setup_context : List Op :=
  [.setColor WHITE_COLOR, .paintAll, .setColor BORDER_COLOR,
   .setLineWidth DEFAULT_LINE_WIDTH, .setLineCapSquare]

/-! ## Text drawing (source lines 1943–1997) -/

/-- Source `draw_text_at`: outline stroke in white, then border-color fill. -/
def draw_text_at (x y : ℚ) (text : String) (font_px : ℚ) : List Op :=
  [.moveTo ⟨x, y⟩, .layoutPath text font_px] ++
  (if 0 < TEXT_OUTLINE_WIDTH then
    [.setColor WHITE_COLOR, .setLineWidth TEXT_OUTLINE_WIDTH, .strokePreserve]
   else []) ++
  [.setColor BORDER_COLOR, .fill, .setLineWidth DEFAULT_LINE_WIDTH]

/-- Source `draw_text_centered`. -/
def draw_text_centered (M : TextMeasure) (center : Point) (text : String)
    (font_px : ℚ) : List Op :=
  if strTrim text = "" then []
  else
    let wh := M text font_px
    draw_text_at (center.x - wh.1 / 2) (center.y - wh.2 / 2) text font_px

/-- Source `draw_text_bottom_centered`. -/
def draw_text_bottom_centered (M : TextMeasure) (rect : PixelRect)
    (text : String) (font_px : ℚ) : List Op :=
  if strTrim text = "" then []
  else
    let wh := M text font_px
    draw_text_at (rect.center.x - wh.1 / 2)
      (rect.y0 + rect.height - wh.2 - 2) text font_px

/-! ## Path construction (source lines 1505–1750) -/

/-- Source `path_rect`. -/
def path_rect (rect : PixelRect) : List Op :=
  [.newPath, .rectPath rect.x0 rect.y0 rect.width rect.height]

/-- Source `path_ellipse`: unit circle under a scaled translation, inside a
save/restore pair. -/
def path_ellipse (rect : PixelRect) : List Op :=
  [.save, .newPath, .translate rect.center.x rect.center.y,
   .scaleCtx (max (rect.width / 2) 1) (max (rect.height / 2) 1),
   .arcPath ⟨0, 0⟩ 1 0 2, .restore]

/-- Source `path_round_rect_impl`: radius clamped to half width/height. -/
def path_round_rect_impl (x y width height radius : ℚ) : List Op :=
  let radius := min (min radius (width / 2)) (height / 2)
  let right := x + width
  let bottom := y + height
  [.newPath, .moveTo ⟨x + radius, y⟩, .lineTo ⟨right - radius, y⟩,
   .arcPath ⟨right - radius, y + radius⟩ radius (-(1/2)) 0,
   .lineTo ⟨right, bottom - radius⟩,
   .arcPath ⟨right - radius, bottom - radius⟩ radius 0 (1/2),
   .lineTo ⟨x + radius, bottom⟩,
   .arcPath ⟨x + radius, bottom - radius⟩ radius (1/2) 1,
   .lineTo ⟨x, y + radius⟩,
   .arcPath ⟨x + radius, y + radius⟩ radius 1 (3/2),
   .closePath]

/-- Source `path_round_rect`. -/
def path_round_rect (rect : PixelRect) (radius : ℚ) : List Op :=
  path_round_rect_impl rect.x0 rect.y0 rect.width rect.height radius

/-- Source `path_round_bottom_rect_impl`. -/
def path_round_bottom_rect_impl (x y width height radius : ℚ) : List Op :=
  let radius := min (min radius (width / 2)) (height / 2)
  let right := x + width
  let bottom := y + height
  [.newPath, .moveTo ⟨x, y⟩, .lineTo ⟨right, y⟩,
   .lineTo ⟨right, bottom - radius⟩,
   .arcPath ⟨right - radius, bottom - radius⟩ radius 0 (1/2),
   .lineTo ⟨x + radius, bottom⟩,
   .arcPath ⟨x + radius, bottom - radius⟩ radius (1/2) 1,
   .closePath]

/-- Source `path_cut_rect`. -/
def path_cut_rect (rect : PixelRect) (corner : ℚ) : List Op :=
  let x0 := rect.x0
  let y0 := rect.y0
  let x1 := rect.x0 + rect.width
  let y1 := rect.y0 + rect.height
  [.newPath, .moveTo ⟨x0, y0 + corner⟩, .lineTo ⟨x0 + corner, y0⟩,
   .lineTo ⟨x1 - corner, y0⟩, .lineTo ⟨x1, y0 + corner⟩,
   .lineTo ⟨x1, y1 - corner⟩, .lineTo ⟨x1 - corner, y1⟩,
   .lineTo ⟨x0 + corner, y1⟩, .lineTo ⟨x0, y1 - corner⟩, .closePath]

/-- Source `path_hexagon`. -/
def path_hexagon (rect : PixelRect) : List Op :=
  let x0 := rect.x0
  let y0 := rect.y0
  let w := rect.width
  let h := rect.height
  [.newPath, .moveTo ⟨x0, y0 + h / 2⟩, .lineTo ⟨x0 + w / 4, y0⟩,
   .lineTo ⟨x0 + 3 * w / 4, y0⟩, .lineTo ⟨x0 + w, y0 + h / 2⟩,
   .lineTo ⟨x0 + 3 * w / 4, y0 + h⟩, .lineTo ⟨x0 + w / 4, y0 + h⟩,
   .closePath]

/-- Source `path_concave_hexagon`. -/
def path_concave_hexagon (rect : PixelRect) : List Op :=
  let x0 := rect.x0
  let y0 := rect.y0
  let w := rect.width
  let h := rect.height
  [.newPath, .moveTo ⟨x0, y0⟩, .lineTo ⟨x0 + w, y0⟩,
   .lineTo ⟨x0 + 17/20 * w, y0 + h / 2⟩, .lineTo ⟨x0 + w, y0 + h⟩,
   .lineTo ⟨x0, y0 + h⟩, .lineTo ⟨x0 + 3/20 * w, y0 + h / 2⟩, .closePath]

/-- Source `quad_curve_to`: a quadratic Bézier encoded as the cubic cairo
supports; the source reads the current point from the context, which is
threaded explicitly here (the only caller, `path_barrel`, always knows it). -/
def quad_curve_to (cur : Point) (cx cy x y : ℚ) : Op :=
  .curveTo ⟨cur.x + 2/3 * (cx - cur.x), cur.y + 2/3 * (cy - cur.y)⟩
    ⟨x + 2/3 * (cx - x), y + 2/3 * (cy - y)⟩ ⟨x, y⟩

/-- Source `path_barrel`. -/
def path_barrel (rect : PixelRect) : List Op :=
  let x := rect.x0
  let y := rect.y0
  let w := rect.width
  let h := rect.height
  let top_y := y + 3/100 * h
  let bottom_y := y + 97/100 * h
  [.newPath, .moveTo ⟨x, top_y⟩, .lineTo ⟨x, bottom_y⟩,
   quad_curve_to ⟨x, bottom_y⟩ (x + 6/100 * w) (y + h) (x + w / 4) (y + h),
   .lineTo ⟨x + 3 * w / 4, y + h⟩,
   quad_curve_to ⟨x + 3 * w / 4, y + h⟩ (x + 95/100 * w) (y + h) (x + w)
     (y + 95/100 * h),
   .lineTo ⟨x + w, y + 5/100 * h⟩,
   quad_curve_to ⟨x + w, y + 5/100 * h⟩ (x + w) y (x + 3 * w / 4) y,
   .lineTo ⟨x + w / 4, y⟩,
   quad_curve_to ⟨x + w / 4, y⟩ (x + 6/100 * w) y x top_y,
   .closePath]

/-- Source `path_tag`. -/
def path_tag (rect : PixelRect) (notch : ℚ) : List Op :=
  let x0 := rect.x0
  let y0 := rect.y0
  let x1 := rect.x0 + rect.width
  let y1 := rect.y0 + rect.height
  let mid_y := (y0 + y1) / 2
  [.newPath, .moveTo ⟨x0 + notch, y0⟩, .lineTo ⟨x1, y0⟩, .lineTo ⟨x1, y1⟩,
   .lineTo ⟨x0 + notch, y1⟩, .lineTo ⟨x0, mid_y⟩, .closePath]

/-! ## Shape drawing with clone marker (source lines 1444–1503) -/

/-- Source `draw_clone_marker`: a clipped shaded band at the bottom of the
shape, with paint state explicitly restored afterwards. -/
def draw_clone_marker (rect : PixelRect) (path_fn : PixelRect → List Op) :
    List Op :=
  let marker_height := max (rect.height * clone_marker_height_ratio) 1
  let marker_width := rect.width
  let marker_x := rect.center.x - marker_width / 2
  let marker_y := rect.y0 + rect.height - marker_height
  [Op.save] ++ path_fn rect ++
  [.clipPath, .newPath, .rectPath marker_x marker_y marker_width marker_height,
   .setColor CLONE_MARKER_FILL_COLOR, .fillPreserve, .setColor AUX_LINE_COLOR,
   .setLineWidth (max CLONE_MARKER_STROKE_WIDTH 1), .stroke, .restore,
   .setColor BORDER_COLOR, .setLineWidth DEFAULT_LINE_WIDTH]

/-- Source `draw_shape_with_clone`: path, fill, stroke, optional clone
marker, centered label, line width restored. -/
def draw_shape_with_clone (M : TextMeasure) (rect : PixelRect) (label : String)
    (font_px : ℚ) (has_clone : Bool) (line_width : ℚ)
    (fill_color : Option Color) (path_fn : PixelRect → List Op) : List Op :=
  [Op.setLineWidth (max line_width (1/2))] ++ path_fn rect ++
  (match fill_color with
   | some c => [Op.setColor c, Op.fillPreserve]
   | none => []) ++
  [Op.setColor BORDER_COLOR, Op.stroke] ++
  (if has_clone then
    draw_clone_marker rect path_fn ++ path_fn rect ++
    [Op.setColor BORDER_COLOR, Op.stroke]
   else []) ++
  draw_text_centered M rect.center label font_px ++
  [Op.setLineWidth DEFAULT_LINE_WIDTH]

/-! ## Per-class glyph shapes (source lines 499–788, 1422–1442) -/

/-- Source `draw_box_bbox`. -/
def draw_box_bbox (M : TextMeasure) (t : Transform) (bbox : BBox)
    (label : String) (font_px : ℚ) (has_clone : Bool) : List Op :=
  draw_shape_with_clone M (bbox_pixel_rect t bbox) label font_px has_clone
    DEFAULT_LINE_WIDTH (some DEFAULT_FILL_COLOR) path_rect

/-- Source `draw_process_debug_bbox` (only reachable when
`SHOW_PROCESS_DEBUG`, which is false). -/
def draw_process_debug_bbox (t : Transform) (bbox : BBox) : List Op :=
  let rect := bbox_pixel_rect t bbox
  let inset_rect : PixelRect :=
    { x0 := rect.x0 - 10, y0 := rect.y0 - 10, width := rect.width + 20,
      height := rect.height + 20, center := rect.center }
  [.setColor (1, 0, 1), .setLineWidth 1] ++ path_rect inset_rect ++
  [.stroke, .setColor BORDER_COLOR, .setLineWidth DEFAULT_LINE_WIDTH]

/-- Source `draw_logical_debug_bbox` (only reachable when
`SHOW_LOGICAL_DEBUG_BBOX`, which is false). -/
def draw_logical_debug_bbox (t : Transform) (bbox : BBox) : List Op :=
  let rect := bbox_pixel_rect t bbox
  [.setColor (1, 0, 1), .setLineWidth 1] ++ path_rect rect ++
  [.stroke, .setColor BORDER_COLOR, .setLineWidth DEFAULT_LINE_WIDTH]

/-- Source `draw_square_bbox`: a square with side `min w h`, centered. -/
def draw_square_bbox (M : TextMeasure) (t : Transform) (bbox : BBox)
    (label : String) (font_px : ℚ) (has_clone : Bool) : List Op :=
  let center_data : Point := ⟨bbox.x + bbox.w / 2, bbox.y + bbox.h / 2⟩
  let side := min bbox.w bbox.h
  let center := t.map_point center_data.x center_data.y
  let side_px := (t.map_size side side).1
  let rect : PixelRect :=
    { x0 := center.x - side_px / 2, y0 := center.y - side_px / 2,
      width := side_px, height := side_px, center := center }
  draw_shape_with_clone M rect label font_px has_clone DEFAULT_LINE_WIDTH
    (some DEFAULT_FILL_COLOR) path_rect

/-- Source `draw_ellipse_bbox_filled` (used for association). -/
def draw_ellipse_bbox_filled (M : TextMeasure) (t : Transform) (bbox : BBox)
    (label : String) (font_px : ℚ) (fill : Color) : List Op :=
  let rect := bbox_pixel_rect t bbox
  path_ellipse rect ++
  [.setLineWidth DEFAULT_LINE_WIDTH, .setColor fill, .fillPreserve,
   .setColor BORDER_COLOR, .stroke] ++
  draw_text_centered M rect.center label font_px

/-- Source `draw_double_circle_bbox` (dissociation). -/
def draw_double_circle_bbox (M : TextMeasure) (t : Transform) (bbox : BBox)
    (label : String) (font_px : ℚ) : List Op :=
  let rect := bbox_pixel_rect t bbox
  let radius := max (min rect.width rect.height / 2) 1
  [.newPath, .setLineWidth DEFAULT_LINE_WIDTH,
   .arcPath rect.center radius 0 2, .setColor DEFAULT_FILL_COLOR,
   .fillPreserve, .setColor BORDER_COLOR, .stroke, .newPath,
   .arcPath rect.center (max (radius * 3/5) 1) 0 2,
   .setColor BORDER_COLOR, .stroke] ++
  draw_text_centered M rect.center label font_px

/-- Source `draw_round_rect_bbox` (unit of information). -/
def draw_round_rect_bbox (M : TextMeasure) (t : Transform) (bbox : BBox)
    (label : String) (font_px : ℚ) (has_clone : Bool) : List Op :=
  draw_shape_with_clone M (bbox_pixel_rect t bbox) label font_px has_clone
    DEFAULT_LINE_WIDTH (some DEFAULT_FILL_COLOR)
    (fun rect => path_round_rect rect (max (min rect.width rect.height * 1/10) 1))

/-- Source `draw_hexagon_bbox` (phenotype/outcome). -/
def draw_hexagon_bbox (M : TextMeasure) (t : Transform) (bbox : BBox)
    (label : String) (font_px : ℚ) (has_clone : Bool) : List Op :=
  draw_shape_with_clone M (bbox_pixel_rect t bbox) label font_px has_clone
    DEFAULT_LINE_WIDTH (some DEFAULT_FILL_COLOR) path_hexagon

/-- Source `draw_source_sink_bbox`: ellipse with a diagonal strike-through. -/
def draw_source_sink_bbox (t : Transform) (bbox : BBox) (has_clone : Bool) :
    List Op :=
  let rect := bbox_pixel_rect t bbox
  path_ellipse rect ++
  [.setLineWidth DEFAULT_LINE_WIDTH, .setColor DEFAULT_FILL_COLOR,
   .fillPreserve, .setColor BORDER_COLOR, .stroke] ++
  (if has_clone then
    draw_clone_marker rect path_ellipse ++ path_ellipse rect ++
    [Op.setColor BORDER_COLOR, Op.stroke]
   else []) ++
  [.newPath, .moveTo ⟨rect.x0, rect.y0 + rect.height⟩,
   .lineTo ⟨rect.x0 + rect.width, rect.y0⟩, .stroke]

/-- Source `draw_barrel_bbox` (compartment), border width 4. -/
def draw_barrel_bbox (M : TextMeasure) (t : Transform) (bbox : BBox)
    (label : String) (font_px : ℚ) (has_clone : Bool) : List Op :=
  draw_shape_with_clone M (bbox_pixel_rect t bbox) label font_px has_clone 4
    (some DEFAULT_FILL_COLOR) path_barrel

/-- Source `draw_tag_bbox`: notch depth 30% of height, minimum 2px. -/
def draw_tag_bbox (M : TextMeasure) (t : Transform) (bbox : BBox)
    (label : String) (font_px : ℚ) (has_clone : Bool) : List Op :=
  draw_shape_with_clone M (bbox_pixel_rect t bbox) label font_px has_clone
    DEFAULT_LINE_WIDTH (some DEFAULT_FILL_COLOR)
    (fun rect => path_tag rect (max (rect.height * 3/10) 2))

/-- Source `draw_stadium_bbox` (state variable). -/
def draw_stadium_bbox (M : TextMeasure) (t : Transform) (bbox : BBox)
    (label : String) (font_px : ℚ) (has_clone : Bool) : List Op :=
  draw_shape_with_clone M (bbox_pixel_rect t bbox) label font_px has_clone
    DEFAULT_LINE_WIDTH (some DEFAULT_FILL_COLOR)
    (fun rect => path_round_rect_impl rect.x0 rect.y0 rect.width rect.height
      (24/100 * max rect.width rect.height))

/-- Source `draw_circle_bbox` (logical operators). -/
def draw_circle_bbox (M : TextMeasure) (t : Transform) (bbox : BBox)
    (label : String) (font_px : ℚ) : List Op :=
  let center := t.map_point (bbox.x + bbox.w / 2) (bbox.y + bbox.h / 2)
  let radius := t.scale_scalar (min bbox.w bbox.h / 2)
  [.arcPath center radius 0 2, .setColor DEFAULT_FILL_COLOR, .fillPreserve,
   .setColor BORDER_COLOR, .stroke] ++
  draw_text_centered M center label font_px

/-! ## Entity pool nodes (source lines 791–962, 2056–2075) -/

/-- Source `entity_pool_fill_color`. -/
def entity_pool_fill_color (class_name : String) : Option Color :=
  match class_name with
  | "complex" => some DEFAULT_FILL_COLOR
  | _ => some DEFAULT_FILL_COLOR

/-- Source `entity_pool_border_width`: 4 for complex, 2 otherwise. -/
def entity_pool_border_width (class_name : String) : ℚ :=
  match class_name with
  | "complex" => 4
  | _ => 2

/-- Source `ghost_offset_for`: reference-space ghost offsets for multimers. -/
def ghost_offset_for (class_name : String) : Option (ℚ × ℚ) :=
  match class_name with
  | "simple chemical" => some (5, 5)
  | "macromolecule" | "nucleic acid feature" => some (12, 12)
  | "complex" => some (16, 16)
  | _ => none

/-- Source `default_dimensions`: reference widths/heights per class. -/
def default_dimensions (class_name : String) : Option (ℚ × ℚ) :=
  match class_name with
  | "unspecified entity" => some (32, 32)
  | "simple chemical" | "simple chemical multimer" => some (48, 48)
  | "macromolecule" | "macromolecule multimer" => some (96, 48)
  | "nucleic acid feature" => some (88, 56)
  | "nucleic acid feature multimer" => some (88, 52)
  | "complex" | "complex multimer" => some (10, 10)
  | "source and sink" => some (60, 60)
  | "perturbing agent" => some (140, 60)
  | "phenotype" => some (140, 60)
  | "process" | "uncertain process" | "omitted process" => some (25, 25)
  | "association" | "dissociation" => some (25, 25)
  | "compartment" => some (50, 50)
  | "tag" => some (100, 65)
  | "and" | "or" | "not" => some (40, 40)
  | _ => none

/-- Source `glyph_font_px`. -/
def glyph_font_px (class_name : String) : ℚ :=
  match class_name with
  | "state variable" | "unit of information" | "cardinality"
  | "variable value" | "tag" | "terminal" => FONT_SMALL_PX
  | _ => FONT_MAIN_PX

/-- Source `draw_entity_pool_base_shape`: the per-class outline. -/
def draw_entity_pool_base_shape (M : TextMeasure) (rect : PixelRect)
    (class_name : String) (label : String) (font_px : ℚ) (has_clone : Bool)
    (fill_color : Option Color) (border_width : ℚ) : List Op :=
  match class_name with
  | "simple chemical" | "unspecified entity" =>
    draw_shape_with_clone M rect label font_px has_clone border_width
      fill_color path_ellipse
  | "macromolecule" =>
    draw_shape_with_clone M rect label font_px has_clone border_width
      fill_color (fun rect => path_round_rect_impl rect.x0 rect.y0 rect.width
        rect.height (max (min rect.width rect.height * 1/10) 1))
  | "nucleic acid feature" =>
    draw_shape_with_clone M rect label font_px has_clone border_width
      fill_color (fun rect => path_round_bottom_rect_impl rect.x0 rect.y0
        rect.width rect.height (max (rect.height * 3/10) 1))
  | "complex" =>
    draw_shape_with_clone M rect label font_px has_clone border_width
      fill_color (fun rect => path_cut_rect rect
        (max (min rect.width rect.height * 2/10) 1))
  | "perturbing agent" =>
    draw_shape_with_clone M rect label font_px has_clone border_width
      fill_color path_concave_hexagon
  | _ =>
    draw_shape_with_clone M rect label font_px has_clone border_width
      fill_color path_rect

/-- Source `px_x` (line 1412): reference x offset scaled into pixel space. -/
def px_x (rect : PixelRect) (value scale_x : ℚ) : ℚ := rect.x0 + value * scale_x

/-- Source `px_y` (line 1417): reference y offset scaled into pixel space. -/
def px_y (rect : PixelRect) (value scale_y : ℚ) : ℚ := rect.y0 + value * scale_y

/-- Source `draw_overlay_line`: a horizontal separator stroke across the
node, paint state restored afterwards. -/
def draw_overlay_line (rect : PixelRect) (y line_width : ℚ) (color : Color) :
    List Op :=
  [.setLineWidth (max line_width 1), .setColor color, .newPath,
   .moveTo ⟨rect.x0, y⟩, .lineTo ⟨rect.x0 + rect.width, y⟩, .stroke,
   .setColor BORDER_COLOR, .setLineWidth DEFAULT_LINE_WIDTH]

/-- Source `port_connector_len_px_for_class`. -/
def port_connector_len_px_for_class (class_name : String) : ℚ :=
  match class_name with
  | "and" | "or" | "not" => LOGICAL_PORT_CONNECTOR_LEN_PX
  | _ => PORT_CONNECTOR_LEN_PX

/-- Source `draw_unit_info`: white rounded box sized from the label width. -/
def draw_unit_info (M : TextMeasure) (x y height : ℚ) (label : String)
    (border_width font_px padding_px : ℚ) : List Op :=
  let text_width := measure_text_width M label font_px
  let width := max (text_width + padding_px) 10
  let center : Point := ⟨x + width / 2, y + height / 2⟩
  [Op.setLineWidth (max border_width 1)] ++
  path_round_rect_impl x y width height (width * 4/100) ++
  [.setColor WHITE_COLOR, .fillPreserve, .setColor BORDER_COLOR, .stroke] ++
  draw_text_centered M center label font_px ++
  [.setLineWidth DEFAULT_LINE_WIDTH]

/-- Source `draw_state_var`: white stadium box sized from the label width. -/
def draw_state_var (M : TextMeasure) (x y height : ℚ) (label : String)
    (border_width font_px padding_px min_width : ℚ) : List Op :=
  let text_width := measure_text_width M label font_px
  let width := max (text_width + padding_px) min_width
  let center : Point := ⟨x + width / 2, y + height / 2⟩
  [Op.setLineWidth (max border_width 1)] ++
  path_round_rect_impl x y width height (24/100 * max width height) ++
  [.setColor WHITE_COLOR, .fillPreserve, .setColor BORDER_COLOR, .stroke] ++
  draw_text_centered M center label font_px ++
  [.setLineWidth DEFAULT_LINE_WIDTH]

/-- Source `draw_entity_pool_aux_items` (lines 965–1244): separator lines
and unit-of-information / state-variable boxes, positioned in reference
space and rescaled to the node's actual pixel size. -/
def draw_entity_pool_aux_items (M : TextMeasure) (rect : PixelRect)
    (class_name : String) (u_info_label s_var_label : Option String) :
    List Op :=
  let wh := (default_dimensions class_name).getD (rect.width, rect.height)
  let scale_x := rect.width / wh.1
  let scale_y := rect.height / wh.2
  let scale := (scale_x + scale_y) / 2
  let aux_item_height := 20 * scale_y
  let border_width := 2 * scale
  let font_px := 10 * scale
  let clone_shrink_y := 3 * scale_y
  let u_info_height := aux_item_height - clone_shrink_y
  match class_name with
  | "simple chemical" =>
    (if u_info_label.isSome then
      draw_overlay_line rect (px_y rect 8 scale_y) (1 * scale) AUX_LINE_COLOR
     else []) ++
    (if u_info_label.isSome then
      draw_overlay_line rect (px_y rect 52 scale_y) (1 * scale) AUX_LINE_COLOR
     else []) ++
    (match u_info_label with
     | some label =>
       draw_unit_info M (px_x rect 12 scale_x) (px_y rect 0 scale_y)
         u_info_height label border_width font_px (5 * scale)
     | none => [])
  | "unspecified entity" =>
    (if u_info_label.isSome || s_var_label.isSome then
      draw_overlay_line rect (px_y rect 8 scale_y) (1 * scale) AUX_LINE_COLOR
     else []) ++
    (if u_info_label.isSome then
      draw_overlay_line rect (px_y rect 52 scale_y) (1 * scale) AUX_LINE_COLOR
     else []) ++
    (match u_info_label with
     | some label =>
       draw_unit_info M (px_x rect 20 scale_x) (px_y rect 44 scale_y)
         u_info_height label border_width font_px (5 * scale)
     | none => []) ++
    (match s_var_label with
     | some label =>
       draw_state_var M (px_x rect 40 scale_x) rect.y0 u_info_height label
         border_width font_px (10 * scale) (30 * scale)
     | none => [])
  | "macromolecule" =>
    (if u_info_label.isSome || s_var_label.isSome then
      draw_overlay_line rect (px_y rect 8 scale_y) (1 * scale) AUX_LINE_COLOR
     else []) ++
    (if u_info_label.isSome then
      draw_overlay_line rect (px_y rect 52 scale_y) (1 * scale) AUX_LINE_COLOR
     else []) ++
    (match u_info_label with
     | some label =>
       draw_unit_info M (px_x rect 20 scale_x) (px_y rect 44 scale_y)
         u_info_height label border_width font_px (5 * scale)
     | none => []) ++
    (match s_var_label with
     | some label =>
       draw_state_var M (px_x rect 40 scale_x) rect.y0 u_info_height label
         border_width font_px (10 * scale) (30 * scale)
     | none => [])
  | "nucleic acid feature" =>
    (if s_var_label.isSome then
      draw_overlay_line rect (px_y rect 8 scale_y) (1 * scale) AUX_LINE_COLOR
     else []) ++
    (if u_info_label.isSome then
      draw_overlay_line rect (px_y rect 52 scale_y) (1 * scale) AUX_LINE_COLOR
     else []) ++
    (match u_info_label with
     | some label =>
       draw_unit_info M (px_x rect 20 scale_x) (px_y rect 44 scale_y)
         u_info_height label border_width font_px (5 * scale)
     | none => []) ++
    (match s_var_label with
     | some label =>
       draw_state_var M (px_x rect 40 scale_x) rect.y0 u_info_height label
         border_width font_px (10 * scale) (30 * scale)
     | none => [])
  | "complex" =>
    (if u_info_label.isSome || s_var_label.isSome then
      draw_overlay_line rect (px_y rect 11 scale_y) (6 * scale) BORDER_COLOR
     else []) ++
    (match u_info_label with
     | some label =>
       draw_unit_info M (rect.x0 + rect.width * 25/100) rect.y0
         (24 * scale_y - clone_shrink_y) label border_width font_px (5 * scale)
     | none => []) ++
    (match s_var_label with
     | some label =>
       draw_state_var M (rect.x0 + rect.width * 88/100) rect.y0
         (24 * scale_y - clone_shrink_y) label border_width font_px
         (10 * scale) (30 * scale)
     | none => [])
  | "perturbing agent" =>
    (if u_info_label.isSome then
      draw_overlay_line rect (px_y rect 8 scale_y) (1 * scale) AUX_LINE_COLOR
     else []) ++
    (if u_info_label.isSome then
      draw_overlay_line rect (px_y rect 56 scale_y) (1 * scale) AUX_LINE_COLOR
     else []) ++
    (match u_info_label with
     | some label =>
       draw_unit_info M (px_x rect 20 scale_x) rect.y0 u_info_height label
         border_width font_px (5 * scale)
     | none => [])
  | _ => []

/-- Source `draw_entity_pool_node`: optional multimer ghost, base shape,
auxiliary items. -/
def draw_entity_pool_node (M : TextMeasure) (t : Transform) (bbox : BBox)
    (label : String) (font_px : ℚ) (class_name : String) (is_multimer : Bool)
    (has_clone : Bool) (u_info_label s_var_label : Option String) : List Op :=
  let rect := bbox_pixel_rect t bbox
  let wh := (default_dimensions class_name).getD (rect.width, rect.height)
  let scale_x := rect.width / wh.1
  let scale_y := rect.height / wh.2
  (if is_multimer then
    match ghost_offset_for class_name with
    | some g =>
      let ghost_rect : PixelRect :=
        { x0 := rect.x0 + g.1 * scale_x, y0 := rect.y0 + g.2 * scale_y,
          width := rect.width, height := rect.height,
          center := ⟨rect.center.x + g.1 * scale_x,
                     rect.center.y + g.2 * scale_y⟩ }
      draw_entity_pool_base_shape M ghost_rect class_name "" FONT_SMALL_PX
        false (entity_pool_fill_color class_name)
        (entity_pool_border_width class_name)
    | none => []
   else []) ++
  draw_entity_pool_base_shape M rect class_name label font_px has_clone
    (entity_pool_fill_color class_name) (entity_pool_border_width class_name) ++
  draw_entity_pool_aux_items M rect class_name u_info_label s_var_label

/-- Source `draw_orientation_marker` (lines 1247–1301): tick-mark connector
lines on the oriented sides. -/
def draw_orientation_marker (t : Transform) (bbox : BBox)
    (orientation : String) (connector_len_px : ℚ) : List Op :=
  let rect := bbox_pixel_rect t bbox
  [Op.setColor BORDER_COLOR, Op.setLineWidth DEFAULT_LINE_WIDTH] ++
  (match orientation with
   | "vertical" =>
     [.newPath, .moveTo ⟨rect.center.x, rect.y0 - connector_len_px⟩,
      .lineTo ⟨rect.center.x, rect.y0⟩,
      .moveTo ⟨rect.center.x, rect.y0 + rect.height⟩,
      .lineTo ⟨rect.center.x, rect.y0 + rect.height + connector_len_px⟩,
      .stroke]
   | "horizontal" =>
     [.newPath, .moveTo ⟨rect.x0 - connector_len_px, rect.center.y⟩,
      .lineTo ⟨rect.x0, rect.center.y⟩,
      .moveTo ⟨rect.x0 + rect.width, rect.center.y⟩,
      .lineTo ⟨rect.x0 + rect.width + connector_len_px, rect.center.y⟩,
      .stroke]
   | "left" =>
     [.newPath, .moveTo ⟨rect.x0 - connector_len_px, rect.center.y⟩,
      .lineTo ⟨rect.x0, rect.center.y⟩, .stroke]
   | "right" =>
     [.newPath, .moveTo ⟨rect.x0 + rect.width, rect.center.y⟩,
      .lineTo ⟨rect.x0 + rect.width + connector_len_px, rect.center.y⟩,
      .stroke]
   | "up" =>
     [.newPath, .moveTo ⟨rect.center.x, rect.y0 - connector_len_px⟩,
      .lineTo ⟨rect.center.x, rect.y0⟩, .stroke]
   | "down" =>
     [.newPath, .moveTo ⟨rect.center.x, rect.y0 + rect.height⟩,
      .lineTo ⟨rect.center.x, rect.y0 + rect.height + connector_len_px⟩,
      .stroke]
   | _ => [])

/-! ## Labels from children (source lines 2020–2054) -/

/-- Source `state_var_label`: synthesize `value@variable`. -/
def state_var_label (value variable_name : Option String) : String :=
  match value, variable_name with
  | some v, some s =>
    if v ≠ "" ∧ s ≠ "" then v ++ "@" ++ s
    else if v ≠ "" then v
    else if s ≠ "" then s
    else ""
  | some v, none => if v ≠ "" then v else ""
  | none, some s => if s ≠ "" then s else ""
  | none, none => ""

/-- Source `first_child_label`: label of the first child with the class, if
non-blank. -/
def first_child_label (children : List Glyph) (class_name : String) :
    Option String :=
  ((children.find? (fun c => c.class_name == class_name)).map
    (fun c => c.label)).filter (fun label => ¬ strTrim label = "")

/-- Source `first_child_state_label`: like `first_child_label` but a blank
label is synthesized from the state value/variable. -/
def first_child_state_label (children : List Glyph) (class_name : String) :
    Option String :=
  ((children.find? (fun c => c.class_name == class_name)).map
    (fun c =>
      if ¬ strTrim c.label = "" then c.label
      else state_var_label c.state_value c.state_variable)).filter
    (fun label => ¬ strTrim label = "")

/-! ## Arc rendering (source lines 1752–1941) -/

/-- Source `draw_open_circle` (equivalence arc decoration). -/
def draw_open_circle (center : Point) (radius : ℚ) : List Op :=
  [.arcPath center (max radius 1) 0 2, .stroke]

/-- Source `draw_filled_circle`. -/
def draw_filled_circle (center : Point) (radius : ℚ) : List Op :=
  [.arcPath center (max radius 1) 0 2, .setColor WHITE_COLOR, .fillPreserve,
   .setColor BORDER_COLOR, .stroke]

/-- Source `draw_filled_circle_tangent` (catalysis): when the final segment
has zero length (`len == 0.0`, i.e. `dx² + dy² = 0`), the circle is drawn at
the endpoint itself; otherwise its center is pulled back along the segment. -/
def draw_filled_circle_tangent (e q : Point) (radius : ℚ) : List Op :=
  if (e.x - q.x) ^ 2 + (e.y - q.y) ^ 2 = 0 then draw_filled_circle e radius
  else
    [.tangentCirclePath e q radius, .setColor WHITE_COLOR, .fillPreserve,
     .setColor BORDER_COLOR, .stroke]

/-- Source `draw_open_triangle`: nothing at all when `triangle_points`
returns `None` (zero-length direction, i.e. `dx² + dy² = 0`). -/
def draw_open_triangle (e q : Point) (size : ℚ) : List Op :=
  if (e.x - q.x) ^ 2 + (e.y - q.y) ^ 2 = 0 then []
  else [.trianglePath e q size, .stroke]

/-- Source `draw_open_triangle_opaque`: white-filled then stroked. -/
def draw_open_triangle_opaque (e q : Point) (size : ℚ) : List Op :=
  if (e.x - q.x) ^ 2 + (e.y - q.y) ^ 2 = 0 then []
  else
    [.trianglePath e q size, .setColor WHITE_COLOR, .fillPreserve,
     .setColor BORDER_COLOR, .stroke]

/-- Source `draw_filled_triangle` (production). -/
def draw_filled_triangle (e q : Point) (size : ℚ) : List Op :=
  if (e.x - q.x) ^ 2 + (e.y - q.y) ^ 2 = 0 then []
  else [.trianglePath e q size, .fill]

/-- Source `draw_inhibition_bar`: skipped when the segment has zero length. -/
def draw_inhibition_bar (e q : Point) (length offset : ℚ) : List Op :=
  if (e.x - q.x) ^ 2 + (e.y - q.y) ^ 2 = 0 then []
  else [.barPath e q length offset, .stroke]

/-- The polyline strokes of `draw_arc`'s `points.windows(2)` loop. -/
def segment_ops (ps : List Point) : List Op :=
  match ps with
  | a :: rest =>
    match rest with
    | b :: _ => [.moveTo a, .lineTo b, .stroke] ++ segment_ops rest
    | [] => []
  | [] => []
termination_by structural ps

/-- The class-keyed decoration match of `draw_arc` (lines 1775–1797), at the
segment from `q` (second-to-last point) to `e` (last point). -/
def arc_decoration_ops (class_name : String) (e q : Point)
    (arrow_size bar_length bar_offset : ℚ) : List Op :=
  match class_name with
  | "assignment" | "unknown influence" => draw_open_triangle e q arrow_size
  | "positive influence" | "stimulation" =>
    draw_open_triangle_opaque e q arrow_size
  | "production" => draw_filled_triangle e q arrow_size
  | "negative influence" | "inhibition" => draw_inhibition_bar e q bar_length 0
  | "absolute inhibition" =>
    draw_inhibition_bar e q bar_length 0 ++
    draw_inhibition_bar e q bar_length bar_offset
  | "necessary stimulation" =>
    draw_inhibition_bar e q bar_length bar_offset ++
    draw_open_triangle_opaque e q arrow_size
  | "catalysis" => draw_filled_circle_tangent e q (arrow_size * 4/10)
  | "equivalence arc" => draw_open_circle e (arrow_size * 4/10)
  | _ => []

/-- Source `draw_arc` (lines 1752–1800): stroked polyline, then exactly one
class-keyed terminal decoration at the last two points. -/
def draw_arc (points : List Point) (class_name : String)
    (arrow_size bar_length bar_offset : ℚ) : List Op :=
  if points.length < 2 then []
  else
    let e := points[points.length - 1]!
    let q := points[points.length - 2]!
    [Op.setColor BORDER_COLOR, Op.setLineWidth DEFAULT_LINE_WIDTH] ++
    segment_ops points ++
    arc_decoration_ops class_name e q arrow_size bar_length bar_offset

/-! ## The glyph forest and the render pass (source lines 224–497) -/

mutual
/-- A glyph with its structural children, as built by `parse_glyph_node`. -/
inductive GTree where
  | node (g : Glyph) (children : GForest)

/-- An ordered list of sibling glyph trees, in document order. -/
inductive GForest where
  | nil
  | cons (t : GTree) (rest : GForest)
end

/-- The glyph at a tree's root. -/
def GTree.glyph : GTree → Glyph
  | .node g _ => g

/-- The child forest at a tree's root. -/
def GTree.children : GTree → GForest
  | .node _ cs => cs

/-- The root glyphs of a forest, in order: what `child_map` yields for a
parent (its direct children). -/
def GForest.rootGlyphs : GForest → List Glyph
  | .nil => []
  | .cons t rest => t.glyph :: rest.rootGlyphs

mutual
/-- Preorder glyph list of one tree: the order `parse_glyph_node` pushes
glyphs into the flat vector. -/
def preorderTree : GTree → List Glyph
  | .node g cs => g :: preorderForest cs

/-- Preorder glyph list of a forest. -/
def preorderForest : GForest → List Glyph
  | .nil => []
  | .cons t rest => preorderTree t ++ preorderForest rest
end

/-- The glyphs with a parent, in flat-vector order: every glyph of the
forest except the top-level roots (exactly those `parse_glyph_node` gives a
`parent_id`). -/
def glyphsWithParent : GForest → List Glyph
  | .nil => []
  | .cons t rest => preorderForest t.children ++ glyphsWithParent rest

/-- The `label_override` table of `render_glyph_tree` (lines 311–318). -/
def label_override_for (class_name : String) : Option String :=
  match class_name with
  | "and" => some "AND"
  | "or" => some "OR"
  | "not" => some "NOT"
  | "omitted process" => some "\\\\"
  | "uncertain process" => some "?"
  | _ => none

/-- The effective glyph label of `render_glyph_tree` (lines 319–322):
override, else the glyph's label, else (for a blank state variable) the
synthesized state label. -/
def effective_label (g : Glyph) : String :=
  let label0 := (label_override_for g.class_name).getD g.label
  if g.class_name == "state variable" && strTrim label0 == "" then
    state_var_label g.state_value g.state_variable
  else label0

/-- The orientation resolution of `render_glyph_tree` (lines 466–475): the
explicit orientation, or "horizontal" for the five classes that default. -/
def effective_orientation (explicit : Option String) (class_name : String) :
    Option String :=
  match explicit with
  | some o => some o
  | none =>
    if class_name = "process" ∨ class_name = "omitted process" ∨
       class_name = "uncertain process" ∨ class_name = "association" ∨
       class_name = "dissociation" then some "horizontal"
    else none

/-- The class-dispatch match of `render_glyph_tree` (lines 345–464),
selecting the shape family for one glyph. -/
def glyph_shape_ops (M : TextMeasure) (t : Transform) (bbox : BBox)
    (shape_label : String) (font_px : ℚ) (class_name class_base : String)
    (is_multimer has_clone : Bool) (u_info_label s_var_label : Option String) :
    List Op :=
  match class_name with
  | "phenotype" | "outcome" =>
    draw_hexagon_bbox M t bbox shape_label font_px false
  | "perturbing agent" =>
    draw_entity_pool_node M t bbox shape_label font_px class_base
      is_multimer has_clone u_info_label none
  | "simple chemical" | "simple chemical multimer" =>
    draw_entity_pool_node M t bbox shape_label font_px class_base
      is_multimer has_clone u_info_label none
  | "unspecified entity" =>
    draw_entity_pool_node M t bbox shape_label font_px class_base
      is_multimer has_clone u_info_label s_var_label
  | "macromolecule" | "macromolecule multimer" =>
    draw_entity_pool_node M t bbox shape_label font_px class_base
      is_multimer has_clone u_info_label s_var_label
  | "nucleic acid feature" | "nucleic acid feature multimer" =>
    draw_entity_pool_node M t bbox shape_label font_px class_base
      is_multimer has_clone u_info_label s_var_label
  | "complex" | "complex multimer" =>
    draw_entity_pool_node M t bbox shape_label font_px class_base
      is_multimer has_clone u_info_label s_var_label
  | "source and sink" => draw_source_sink_bbox t bbox has_clone
  | "compartment" => draw_barrel_bbox M t bbox shape_label font_px has_clone
  | "tag" => draw_tag_bbox M t bbox shape_label font_px has_clone
  | "association" =>
    draw_ellipse_bbox_filled M t bbox shape_label font_px
      ASSOCIATION_FILL_COLOR
  | "dissociation" => draw_double_circle_bbox M t bbox shape_label font_px
  | "process" | "omitted process" | "uncertain process" =>
    draw_square_bbox M t bbox shape_label font_px false ++
    (if SHOW_PROCESS_DEBUG then draw_process_debug_bbox t bbox else [])
  | "unit of information" =>
    draw_round_rect_bbox M t bbox shape_label font_px false
  | "state variable" =>
    draw_stadium_bbox M t bbox shape_label font_px false
  | "and" | "or" | "not" =>
    draw_circle_bbox M t bbox shape_label font_px ++
    (if SHOW_LOGICAL_DEBUG_BBOX then draw_logical_debug_bbox t bbox else [])
  | _ => draw_box_bbox M t bbox shape_label font_px false

mutual
/-- Source `render_glyph_tree` (lines 296–497): draw one glyph (nothing at
all when it has no bounding box) and recurse into its structural children. -/
def render_glyph_tree (M : TextMeasure) (t : Transform) (show_clone : Bool)
    (t0 : GTree) : List Op :=
  match t0 with
  | .node g children =>
    match g.bbox with
    | none => []
    | some bbox =>
      let class_name := g.class_name
      let is_multimer := strEndsWith class_name " multimer"
      let class_base :=
        if is_multimer then strDropSuffix class_name " multimer"
        else class_name
      let label := effective_label g
      let font_px := glyph_font_px class_name
      let has_clone := show_clone && g.has_clone
      let child_glyphs := children.rootGlyphs
      let has_u_info_bbox := child_glyphs.any (fun c =>
        c.class_name == "unit of information" && c.bbox.isSome)
      let has_s_var_bbox := child_glyphs.any (fun c =>
        c.class_name == "state variable" && c.bbox.isSome)
      let u_info_label :=
        if has_u_info_bbox then none
        else first_child_label child_glyphs "unit of information"
      let s_var_label :=
        if has_s_var_bbox then none
        else first_child_state_label child_glyphs "state variable"
      let place_label_bottom :=
        class_base == "complex" || class_name == "compartment"
      let shape_label := if place_label_bottom then "" else label
      glyph_shape_ops M t bbox shape_label font_px class_name class_base
        is_multimer has_clone u_info_label s_var_label ++
      (match effective_orientation g.orientation class_name with
       | some orientation =>
         draw_orientation_marker t bbox orientation
           (port_connector_len_px_for_class class_name)
       | none => []) ++
      (if place_label_bottom then
        draw_text_bottom_centered M (bbox_pixel_rect t bbox) label font_px
       else []) ++
      render_structural_children M t show_clone children
termination_by structural t0

/-- The child loop at the end of `render_glyph_tree`: children whose class
is "unit of information" or "state variable" are skipped. -/
def render_structural_children (M : TextMeasure) (t : Transform)
    (show_clone : Bool) (f0 : GForest) : List Op :=
  match f0 with
  | .nil => []
  | .cons c rest =>
    (if c.glyph.class_name = "unit of information" ∨
        c.glyph.class_name = "state variable" then []
     else render_glyph_tree M t show_clone c) ++
    render_structural_children M t show_clone rest
termination_by structural f0
end

/-- The root loop of `render_sbgnml`: every top-level glyph is rendered. -/
def render_roots (M : TextMeasure) (t : Transform) (show_clone : Bool) :
    GForest → List Op
  | .nil => []
  | .cons c rest =>
    render_glyph_tree M t show_clone c ++ render_roots M t show_clone rest

/-- The dedicated absolute-position pass of `render_sbgnml` (lines 256–279)
for one auxiliary glyph. -/
def render_aux_glyph (M : TextMeasure) (t : Transform)
    (show_clone_markers : Bool) (g : Glyph) : List Op :=
  match g.bbox with
  | none => []
  | some bbox =>
    let class_name := g.class_name
    let label :=
      if class_name == "state variable" && strTrim g.label == "" then
        state_var_label g.state_value g.state_variable
      else g.label
    let font_px := glyph_font_px class_name
    let has_clone := show_clone_markers && g.has_clone
    match class_name with
    | "unit of information" =>
      draw_round_rect_bbox M t bbox label font_px has_clone
    | "state variable" => draw_stadium_bbox M t bbox label font_px has_clone
    | _ => []

/-- Source `render_sbgnml` (lines 224–294): recursive pass over the roots,
then the absolute-position pass over parented unit-of-information /
state-variable glyphs, then the arcs. -/
def render_sbgnml (M : TextMeasure) (t : Transform) (roots : GForest)
    (arcs : List Arc) (show_clone_markers : Bool) : List Op :=
  let aux_glyphs := (glyphsWithParent roots).filter (fun g =>
    g.class_name == "unit of information" || g.class_name == "state variable")
  let arrow_size_px := t.scale_scalar (ARROW_SIZE * ARROW_SCALE)
  let bar_length_px := t.scale_scalar (BAR_LENGTH * ARROW_SCALE)
  let bar_offset_px := t.scale_scalar (BAR_OFFSET * ARROW_SCALE)
  render_roots M t show_clone_markers roots ++
  aux_glyphs.flatMap (render_aux_glyph M t show_clone_markers) ++
  arcs.flatMap (fun arc =>
    draw_arc (arc.points.map (fun p => t.map_point p.x p.y)) arc.class_name
      arrow_size_px bar_length_px bar_offset_px)

/-! ## Paint-state semantics of the op trace

Cairo's context carries the current source color and line width, with a
save/restore stack.  `stepOp` is that state machine; `traceOps` resolves an
op list into the sequence of surface-affecting operations, each stamped with
the paint it executes under — two runs render identically exactly when their
resolved traces agree. -/

/-- The styling state of the cairo context that the renderer touches. -/
structure Paint where
  color : Color
  lineWidth : ℚ
  deriving DecidableEq, Repr

/-- The paint state `setup_context` establishes. -/
def defaultPaint : Paint := ⟨BORDER_COLOR, DEFAULT_LINE_WIDTH⟩

/-- Current paint plus the save/restore stack. -/
abbrev PState := Paint × List Paint

/-- One op's effect on the paint state. -/
def stepOp (s : PState) (op : Op) : PState :=
  match op with
  | .setColor c => (⟨c, s.1.lineWidth⟩, s.2)
  | .setLineWidth w => (⟨s.1.color, w⟩, s.2)
  | .save => (s.1, s.1 :: s.2)
  | .restore =>
    match s.2 with
    | [] => s
    | q :: rest => (q, rest)
  | _ => s

/-- Run a whole op list through the paint-state machine. -/
def execOps (s : PState) : List Op → PState
  | [] => s
  | op :: rest => execOps (stepOp s op) rest

/-- A resolved surface-affecting operation: what actually reaches pixels. -/
inductive TraceEntry where
  | strokeE (c : Color) (w : ℚ)
  | fillE (c : Color)
  | paintE (c : Color)
  | surfaceE (op : Op)
  deriving DecidableEq, Repr

/-- The trace contribution of one op under the current paint. -/
def entryFor (p : Paint) : Op → List TraceEntry
  | .setColor _ => []
  | .setLineWidth _ => []
  | .save => []
  | .restore => []
  | .stroke => [.strokeE p.color p.lineWidth]
  | .strokePreserve => [.strokeE p.color p.lineWidth]
  | .fill => [.fillE p.color]
  | .fillPreserve => [.fillE p.color]
  | .paintAll => [.paintE p.color]
  | op => [.surfaceE op]

/-- Resolve an op list into its surface trace. -/
def traceOps (s : PState) : List Op → List TraceEntry
  | [] => []
  | op :: rest => entryFor s.1 op ++ traceOps (stepOp s op) rest

/-! ## Exact decoration geometry over ℝ (source lines 1884–1907)

`triangle_points` needs a square root, so it is embedded over ℝ; it gives
the pointwise geometry that the reified `Op.trianglePath` arguments stand
for. -/

/-- A point with real coordinates. -/
structure RPoint where
  x : ℝ
  y : ℝ

/-- Source `triangle_points`: `None` for a zero-length direction, otherwise
`(p1, p2, tip)` — the two base corners and the tip at the endpoint. -/
noncomputable def triangle_points (e q : RPoint) (size : ℝ) :
    Option (RPoint × RPoint × RPoint) :=
  let dx := e.x - q.x
  let dy := e.y - q.y
  let length := Real.sqrt (dx * dx + dy * dy)
  if length = 0 then none
  else
    let ux := dx / length
    let uy := dy / length
    let base_x := e.x - ux * size
    let base_y := e.y - uy * size
    let perp_x := -uy
    let perp_y := ux
    let half_width := size * (6/10)
    some (⟨base_x + perp_x * half_width, base_y + perp_y * half_width⟩,
          ⟨base_x - perp_x * half_width, base_y - perp_y * half_width⟩, e)

/-! ## Generic helper lemmas -/

lemma execOps_append (s : PState) (a b : List Op) :
    execOps s (a ++ b) = execOps (execOps s a) b := by
  induction a generalizing s with
  | nil => rfl
  | cons op rest ih => simp [execOps, ih]

lemma traceOps_append (s : PState) (a b : List Op) :
    traceOps s (a ++ b) = traceOps s a ++ traceOps (execOps s a) b := by
  induction a generalizing s with
  | nil => rfl
  | cons op rest ih => simp [traceOps, execOps, ih]

lemma trim_empty_string : strTrim "" = "" := rfl

/-! ## C7: the fitted transform -/

/-- C7.  For every `Transform` built by `Transform::new`, the data spans
used as divisors are clamped to at least 1 (so neither axis divides by
zero), the axis scales satisfy `scale * clampedSpan = size` exactly, and
`scale_scalar v` is `v` times the smaller of the two axis scales. -/
theorem transform_fit_clamps_and_scale_scalar
    (min_x min_y max_x max_y width height : ℚ) :
    1 ≤ max |max_x - min_x| 1 ∧ 1 ≤ max |max_y - min_y| 1 ∧
    (Transform.new min_x min_y max_x max_y width height).scale_x *
      max |max_x - min_x| 1 = width ∧
    (Transform.new min_x min_y max_x max_y width height).scale_y *
      max |max_y - min_y| 1 = height ∧
    (∀ v : ℚ, (Transform.new min_x min_y max_x max_y width height).scale_scalar
      v = v * min (Transform.new min_x min_y max_x max_y width height).scale_x
        (Transform.new min_x min_y max_x max_y width height).scale_y) := by
  have hx : (0 : ℚ) < max |max_x - min_x| 1 :=
    lt_of_lt_of_le one_pos (le_max_right _ _)
  have hy : (0 : ℚ) < max |max_y - min_y| 1 :=
    lt_of_lt_of_le one_pos (le_max_right _ _)
  refine ⟨le_max_right _ _, le_max_right _ _, ?_, ?_, fun v => rfl⟩
  · simp [Transform.new]
    exact div_mul_cancel₀ width hx.ne'
  · simp [Transform.new]
    exact div_mul_cancel₀ height hy.ne'

/-! ## C8: state-variable label synthesis -/

/-- C8.  For a state-variable glyph with a blank explicit label, the
synthesized label is `value@variable` when both are present and non-empty,
the value alone when only the value is present, and empty when neither is
present — in which case the first-child state label is `none`, so no
overlay box is drawn (for a macromolecule parent the auxiliary pass emits
nothing at all). -/
theorem state_variable_label_synthesis :
    (∀ v s : String, v ≠ "" → s ≠ "" →
      state_var_label (some v) (some s) = v ++ "@" ++ s) ∧
    (∀ v : String, v ≠ "" → state_var_label (some v) none = v) ∧
    state_var_label none none = "" ∧
    (∀ ch : Glyph, ch.class_name = "state variable" → strTrim ch.label = "" →
      ch.state_value = none → ch.state_variable = none →
      first_child_state_label [ch] "state variable" = none) ∧
    (∀ (M : TextMeasure) (rect : PixelRect),
      draw_entity_pool_aux_items M rect "macromolecule" none none = []) := by
  refine ⟨?_, ?_, rfl, ?_, fun M rect => rfl⟩
  · intro v s hv hs
    simp [state_var_label, hv, hs]
  · intro v hv
    simp [state_var_label, hv]
  · intro ch hclass hlabel hval hvar
    simp [first_child_state_label, List.find?, hclass, hlabel, hval, hvar,
      state_var_label, trim_empty_string]

/-- Closed instantiation of C8 at the spec's scenario values. -/
theorem state_variable_label_synthesis_witness :
    state_var_label (some "P") (some "S1") = "P@S1" ∧
    state_var_label (some "P") none = "P" ∧
    state_var_label none none = "" := by
  refine ⟨state_variable_label_synthesis.1 "P" "S1" (by decide) (by decide),
    state_variable_label_synthesis.2.1 "P" (by decide),
    state_variable_label_synthesis.2.2.1⟩

/-! ## C4: multimer ghost copies -/

/-- The ghost rectangle for a multimer: the node's pixel rect shifted by the
class's reference offset scaled per axis by actual/reference size. -/
def ghostRect (rect : PixelRect) (gdx gdy refW refH : ℚ) : PixelRect :=
  { x0 := rect.x0 + gdx * (rect.width / refW),
    y0 := rect.y0 + gdy * (rect.height / refH),
    width := rect.width, height := rect.height,
    center := ⟨rect.center.x + gdx * (rect.width / refW),
               rect.center.y + gdy * (rect.height / refH)⟩ }

/-- C4.  For each tabulated entity-pool class, a multimer draws a ghost copy
of the base shape STRICTLY BEFORE the primary shape, offset by the class's
tabulated reference offset — simple chemical (5,5), macromolecule and
nucleic acid feature (12,12), complex (16,16) — scaled per axis by the ratio
of the actual pixel size to the class's reference dimensions; a class with
no tabulated ghost offset draws no ghost. -/
theorem multimer_ghost_offset_and_order (M : TextMeasure) (t : Transform)
    (bbox : BBox) (label : String) (font_px : ℚ) (has_clone : Bool)
    (u s : Option String) :
    (∀ rect, rect = bbox_pixel_rect t bbox →
      draw_entity_pool_node M t bbox label font_px "simple chemical" true
          has_clone u s =
        draw_entity_pool_base_shape M (ghostRect rect 5 5 48 48)
          "simple chemical" "" FONT_SMALL_PX false (some DEFAULT_FILL_COLOR) 2 ++
        draw_entity_pool_base_shape M rect "simple chemical" label font_px
          has_clone (some DEFAULT_FILL_COLOR) 2 ++
        draw_entity_pool_aux_items M rect "simple chemical" u s) ∧
    (∀ rect, rect = bbox_pixel_rect t bbox →
      draw_entity_pool_node M t bbox label font_px "macromolecule" true
          has_clone u s =
        draw_entity_pool_base_shape M (ghostRect rect 12 12 96 48)
          "macromolecule" "" FONT_SMALL_PX false (some DEFAULT_FILL_COLOR) 2 ++
        draw_entity_pool_base_shape M rect "macromolecule" label font_px
          has_clone (some DEFAULT_FILL_COLOR) 2 ++
        draw_entity_pool_aux_items M rect "macromolecule" u s) ∧
    (∀ rect, rect = bbox_pixel_rect t bbox →
      draw_entity_pool_node M t bbox label font_px "nucleic acid feature" true
          has_clone u s =
        draw_entity_pool_base_shape M (ghostRect rect 12 12 88 56)
          "nucleic acid feature" "" FONT_SMALL_PX false
          (some DEFAULT_FILL_COLOR) 2 ++
        draw_entity_pool_base_shape M rect "nucleic acid feature" label
          font_px has_clone (some DEFAULT_FILL_COLOR) 2 ++
        draw_entity_pool_aux_items M rect "nucleic acid feature" u s) ∧
    (∀ rect, rect = bbox_pixel_rect t bbox →
      draw_entity_pool_node M t bbox label font_px "complex" true
          has_clone u s =
        draw_entity_pool_base_shape M (ghostRect rect 16 16 10 10)
          "complex" "" FONT_SMALL_PX false (some DEFAULT_FILL_COLOR) 4 ++
        draw_entity_pool_base_shape M rect "complex" label font_px
          has_clone (some DEFAULT_FILL_COLOR) 4 ++
        draw_entity_pool_aux_items M rect "complex" u s) ∧
    (∀ c : String, ghost_offset_for c = none →
      draw_entity_pool_node M t bbox label font_px c true has_clone u s =
        draw_entity_pool_base_shape M (bbox_pixel_rect t bbox) c label font_px
          has_clone (entity_pool_fill_color c) (entity_pool_border_width c) ++
        draw_entity_pool_aux_items M (bbox_pixel_rect t bbox) c u s) := by
  refine ⟨?_, ?_, ?_, ?_, ?_⟩
  · rintro rect rfl; rfl
  · rintro rect rfl; rfl
  · rintro rect rfl; rfl
  · rintro rect rfl; rfl
  · intro c hc
    simp [draw_entity_pool_node, hc]

/-! ## C6: the 96×48 macromolecule scenario -/

/-- The C6 scenario glyph: a single macromolecule at (0,0) sized 96×48 with
no children. -/
def c6_glyph : Glyph :=
  { id := "m1", class_name := "macromolecule", bbox := some ⟨0, 0, 96, 48⟩,
    label := "", ports := [], has_clone := false, state_value := none,
    state_variable := none, orientation := none }

/-- A concrete text measure for closed scenarios (the scenario draws no
text, so its value is irrelevant). -/
def constMeasure : TextMeasure := fun _ _ => (0, 0)

/-- Specialization of the class dispatch at "macromolecule". -/
lemma shape_ops_macromolecule (M : TextMeasure) (t : Transform) (bbox : BBox)
    (l : String) (f : ℚ) (cb : String) (im hc : Bool) (u s : Option String) :
    glyph_shape_ops M t bbox l f "macromolecule" cb im hc u s =
      draw_entity_pool_node M t bbox l f cb im hc u s := rfl

/-- C6.  For a lone macromolecule glyph with box (0,0,96,48) and padding 10:
the canvas is 116×68 pixels (already integral, so the ceiling the source
takes changes nothing), the shape's pixel rectangle runs from (10,10) to
(106,58), and the rounded-rectangle path is built with corner radius
min(96,48)·0.1 = 4.8 px (visible in its corner-arc op, centered 4.8 px
inside the corner with radius 4.8). -/
theorem macromolecule_scenario_geometry :
    compute_bounds [c6_glyph] =
      .ok { min_x := 0, max_x := 96, min_y := 0, max_y := 48 } ∧
    (transform_with_padding
      { min_x := 0, max_x := 96, min_y := 0, max_y := 48 } 10).2 = (116, 68) ∧
    ⌈(transform_with_padding
      { min_x := 0, max_x := 96, min_y := 0, max_y := 48 } 10).2.1⌉ = 116 ∧
    ⌈(transform_with_padding
      { min_x := 0, max_x := 96, min_y := 0, max_y := 48 } 10).2.2⌉ = 68 ∧
    bbox_pixel_rect
      (transform_with_padding
        { min_x := 0, max_x := 96, min_y := 0, max_y := 48 } 10).1
      ⟨0, 0, 96, 48⟩ =
      { x0 := 10, y0 := 10, width := 96, height := 48, center := ⟨58, 34⟩ } ∧
    Op.arcPath ⟨106 - 24/5, 10 + 24/5⟩ (24/5) (-(1/2)) 0 ∈
      render_sbgnml constMeasure
        (transform_with_padding
          { min_x := 0, max_x := 96, min_y := 0, max_y := 48 } 10).1
        (.cons (.node c6_glyph .nil) .nil) [] true := by
  have htr : (transform_with_padding
      { min_x := 0, max_x := 96, min_y := 0, max_y := 48 } 10).1 =
      { min_x := -10, min_y := -10, scale_x := 1, scale_y := 1 } := by
    norm_num [transform_with_padding, Transform.new]
  have hrect : bbox_pixel_rect
      ({ min_x := -10, min_y := -10, scale_x := 1, scale_y := 1 } : Transform)
      ⟨0, 0, 96, 48⟩ =
      { x0 := 10, y0 := 10, width := 96, height := 48, center := ⟨58, 34⟩ } := by
    norm_num [bbox_pixel_rect]
  refine ⟨?_, ?_, ?_, ?_, ?_, ?_⟩
  · norm_num [compute_bounds, c6_glyph]
  · norm_num [transform_with_padding]
  · norm_num [transform_with_padding]
  · norm_num [transform_with_padding]
  · rw [htr]; exact hrect
  · rw [htr]
    have hm : strEndsWith "macromolecule" " multimer" = false := by decide
    simp only [render_sbgnml, render_roots, render_glyph_tree,
      render_structural_children, glyphsWithParent, preorderForest,
      GForest.rootGlyphs, c6_glyph, shape_ops_macromolecule, hm,
      Bool.false_eq_true, if_false, if_neg,
      draw_entity_pool_node, draw_entity_pool_base_shape,
      draw_entity_pool_aux_items, draw_shape_with_clone, draw_text_centered,
      effective_label, label_override_for, effective_orientation,
      first_child_label, first_child_state_label, glyph_font_px,
      trim_empty_string, default_dimensions,
      entity_pool_fill_color, entity_pool_border_width, ghost_offset_for,
      hrect, List.find?, List.filter, List.flatMap]
    norm_num [hrect, path_round_rect_impl]

/-! ## C3: orientation tick-marks -/

/-- Specialization of the class dispatch at "process". -/
lemma shape_ops_process (M : TextMeasure) (t : Transform) (bbox : BBox)
    (l : String) (f : ℚ) (cb : String) (im hc : Bool) (u s : Option String) :
    glyph_shape_ops M t bbox l f "process" cb im hc u s =
      draw_square_bbox M t bbox l f false ++
      (if SHOW_PROCESS_DEBUG then draw_process_debug_bbox t bbox else []) :=
  rfl

/-- The C3 counterexample glyph: a process with box (0,0,10,10). -/
def c3_glyph : Glyph :=
  { id := "p1", class_name := "process", bbox := some ⟨0, 0, 10, 10⟩,
    label := "", ports := [], has_clone := false, state_value := none,
    state_variable := none, orientation := none }

/-- The empty child list yields no auxiliary label. -/
lemma first_child_label_nil (c : String) : first_child_label [] c = none := rfl

/-- The empty child list yields no state label. -/
lemma first_child_state_label_nil (c : String) :
    first_child_state_label [] c = none := rfl

/-- The "horizontal" orientation marker: ticks on both horizontal sides. -/
lemma orientation_marker_horizontal (t : Transform) (bb : BBox) (len : ℚ) :
    draw_orientation_marker t bb "horizontal" len =
      [.setColor BORDER_COLOR, .setLineWidth DEFAULT_LINE_WIDTH, .newPath,
       .moveTo ⟨(bbox_pixel_rect t bb).x0 - len, (bbox_pixel_rect t bb).center.y⟩,
       .lineTo ⟨(bbox_pixel_rect t bb).x0, (bbox_pixel_rect t bb).center.y⟩,
       .moveTo ⟨(bbox_pixel_rect t bb).x0 + (bbox_pixel_rect t bb).width,
                (bbox_pixel_rect t bb).center.y⟩,
       .lineTo ⟨(bbox_pixel_rect t bb).x0 + (bbox_pixel_rect t bb).width + len,
                (bbox_pixel_rect t bb).center.y⟩, .stroke] := rfl

/-- The "vertical" orientation marker: ticks on both vertical sides. -/
lemma orientation_marker_vertical (t : Transform) (bb : BBox) (len : ℚ) :
    draw_orientation_marker t bb "vertical" len =
      [.setColor BORDER_COLOR, .setLineWidth DEFAULT_LINE_WIDTH, .newPath,
       .moveTo ⟨(bbox_pixel_rect t bb).center.x, (bbox_pixel_rect t bb).y0 - len⟩,
       .lineTo ⟨(bbox_pixel_rect t bb).center.x, (bbox_pixel_rect t bb).y0⟩,
       .moveTo ⟨(bbox_pixel_rect t bb).center.x,
                (bbox_pixel_rect t bb).y0 + (bbox_pixel_rect t bb).height⟩,
       .lineTo ⟨(bbox_pixel_rect t bb).center.x,
                (bbox_pixel_rect t bb).y0 + (bbox_pixel_rect t bb).height + len⟩,
       .stroke] := rfl

/-- The "left" orientation marker: a single tick on the left side. -/
lemma orientation_marker_left (t : Transform) (bb : BBox) (len : ℚ) :
    draw_orientation_marker t bb "left" len =
      [.setColor BORDER_COLOR, .setLineWidth DEFAULT_LINE_WIDTH, .newPath,
       .moveTo ⟨(bbox_pixel_rect t bb).x0 - len, (bbox_pixel_rect t bb).center.y⟩,
       .lineTo ⟨(bbox_pixel_rect t bb).x0, (bbox_pixel_rect t bb).center.y⟩,
       .stroke] := rfl

/-- The "right" orientation marker: a single tick on the right side. -/
lemma orientation_marker_right (t : Transform) (bb : BBox) (len : ℚ) :
    draw_orientation_marker t bb "right" len =
      [.setColor BORDER_COLOR, .setLineWidth DEFAULT_LINE_WIDTH, .newPath,
       .moveTo ⟨(bbox_pixel_rect t bb).x0 + (bbox_pixel_rect t bb).width,
                (bbox_pixel_rect t bb).center.y⟩,
       .lineTo ⟨(bbox_pixel_rect t bb).x0 + (bbox_pixel_rect t bb).width + len,
                (bbox_pixel_rect t bb).center.y⟩, .stroke] := rfl

/-- The "up" orientation marker: a single tick on the top side. -/
lemma orientation_marker_up (t : Transform) (bb : BBox) (len : ℚ) :
    draw_orientation_marker t bb "up" len =
      [.setColor BORDER_COLOR, .setLineWidth DEFAULT_LINE_WIDTH, .newPath,
       .moveTo ⟨(bbox_pixel_rect t bb).center.x, (bbox_pixel_rect t bb).y0 - len⟩,
       .lineTo ⟨(bbox_pixel_rect t bb).center.x, (bbox_pixel_rect t bb).y0⟩,
       .stroke] := rfl

/-- The "down" orientation marker: a single tick on the bottom side. -/
lemma orientation_marker_down (t : Transform) (bb : BBox) (len : ℚ) :
    draw_orientation_marker t bb "down" len =
      [.setColor BORDER_COLOR, .setLineWidth DEFAULT_LINE_WIDTH, .newPath,
       .moveTo ⟨(bbox_pixel_rect t bb).center.x,
                (bbox_pixel_rect t bb).y0 + (bbox_pixel_rect t bb).height⟩,
       .lineTo ⟨(bbox_pixel_rect t bb).center.x,
                (bbox_pixel_rect t bb).y0 + (bbox_pixel_rect t bb).height + len⟩,
       .stroke] := rfl

/-- C3 counterexample.  Under a transform with both axis scales 2, the
claim's scaled connector length would be `scale_scalar 11 = 22`, so the
left horizontal tick of the defaulted process glyph would start at
(-22, 10); the renderer instead starts it at the unscaled (-11, 10). -/
theorem orientation_marker_not_scaled_cex :
    Op.moveTo ⟨-11, 10⟩ ∈ render_glyph_tree constMeasure
      { min_x := 0, min_y := 0, scale_x := 2, scale_y := 2 } false
      (.node c3_glyph .nil) ∧
    ({ min_x := 0, min_y := 0, scale_x := 2, scale_y := 2 } :
      Transform).scale_scalar PORT_CONNECTOR_LEN_PX = 22 ∧
    Op.moveTo ⟨-22, 10⟩ ∉ render_glyph_tree constMeasure
      { min_x := 0, min_y := 0, scale_x := 2, scale_y := 2 } false
      (.node c3_glyph .nil) := by
  have hm : strEndsWith "process" " multimer" = false := by decide
  have hb : c3_glyph.bbox = some ⟨0, 0, 10, 10⟩ := rfl
  have hcn : c3_glyph.class_name = "process" := rfl
  have hor : c3_glyph.orientation = none := rfl
  have hcl : c3_glyph.has_clone = false := rfl
  have hl : effective_label c3_glyph = "" := rfl
  have hfp : glyph_font_px "process" = FONT_MAIN_PX := rfl
  have hpc : port_connector_len_px_for_class "process" =
    PORT_CONNECTOR_LEN_PX := rfl
  have hoe : effective_orientation none "process" = some "horizontal" := rfl
  refine ⟨?_, by norm_num [Transform.scale_scalar, PORT_CONNECTOR_LEN_PX], ?_⟩ <;>
  · simp only [render_glyph_tree, render_structural_children,
      GForest.rootGlyphs, hb, hcn, hor, hcl, hl, hm, hfp, hpc, hoe,
      shape_ops_process, first_child_label_nil, first_child_state_label_nil,
      Bool.false_eq_true, if_false, Bool.false_and,
      orientation_marker_horizontal,
      draw_square_bbox, draw_shape_with_clone, draw_text_centered,
      trim_empty_string, Transform.map_point, Transform.map_size, path_rect,
      bbox_pixel_rect, SHOW_PROCESS_DEBUG, List.find?, List.filter,
      List.any_nil]
    norm_num [PORT_CONNECTOR_LEN_PX, DEFAULT_LINE_WIDTH, BORDER_COLOR,
      DEFAULT_FILL_COLOR, WHITE_COLOR]
    try simp +decide [trim_empty_string]

/-- C3 (amended).  Orientation tick-marks are drawn for every glyph with an
explicit orientation, and for process, omitted process, uncertain process,
association and dissociation, which default to "horizontal"; the connector
length is the FIXED pixel length 20 for the logical operators and 11 for
every other class — not multiplied by the transform's axis scale — and
horizontal/vertical draw ticks on both opposing sides while
left/right/up/down draw a single tick on that one side. -/
theorem orientation_marker_fixed_lengths :
    (port_connector_len_px_for_class "and" = 20 ∧
     port_connector_len_px_for_class "or" = 20 ∧
     port_connector_len_px_for_class "not" = 20) ∧
    (∀ c : String, c ≠ "and" → c ≠ "or" → c ≠ "not" →
      port_connector_len_px_for_class c = 11) ∧
    (∀ (o : String) (c : String), effective_orientation (some o) c = some o) ∧
    (effective_orientation none "process" = some "horizontal" ∧
     effective_orientation none "omitted process" = some "horizontal" ∧
     effective_orientation none "uncertain process" = some "horizontal" ∧
     effective_orientation none "association" = some "horizontal" ∧
     effective_orientation none "dissociation" = some "horizontal") ∧
    (∀ c : String, c ≠ "process" → c ≠ "omitted process" →
      c ≠ "uncertain process" → c ≠ "association" → c ≠ "dissociation" →
      effective_orientation none c = none) ∧
    (∀ (M : TextMeasure) (t : Transform) (sc : Bool) (g : Glyph)
      (cs : GForest) (bb : BBox), g.bbox = some bb →
      ∃ pre post, render_glyph_tree M t sc (.node g cs) =
        pre ++
        (match effective_orientation g.orientation g.class_name with
         | some o => draw_orientation_marker t bb o
             (port_connector_len_px_for_class g.class_name)
         | none => []) ++ post) ∧
    (∀ (t : Transform) (bb : BBox) (len : ℚ),
      (∀ rect, rect = bbox_pixel_rect t bb →
        draw_orientation_marker t bb "horizontal" len =
          [.setColor BORDER_COLOR, .setLineWidth DEFAULT_LINE_WIDTH,
           .newPath, .moveTo ⟨rect.x0 - len, rect.center.y⟩,
           .lineTo ⟨rect.x0, rect.center.y⟩,
           .moveTo ⟨rect.x0 + rect.width, rect.center.y⟩,
           .lineTo ⟨rect.x0 + rect.width + len, rect.center.y⟩, .stroke] ∧
        draw_orientation_marker t bb "vertical" len =
          [.setColor BORDER_COLOR, .setLineWidth DEFAULT_LINE_WIDTH,
           .newPath, .moveTo ⟨rect.center.x, rect.y0 - len⟩,
           .lineTo ⟨rect.center.x, rect.y0⟩,
           .moveTo ⟨rect.center.x, rect.y0 + rect.height⟩,
           .lineTo ⟨rect.center.x, rect.y0 + rect.height + len⟩, .stroke] ∧
        draw_orientation_marker t bb "left" len =
          [.setColor BORDER_COLOR, .setLineWidth DEFAULT_LINE_WIDTH,
           .newPath, .moveTo ⟨rect.x0 - len, rect.center.y⟩,
           .lineTo ⟨rect.x0, rect.center.y⟩, .stroke] ∧
        draw_orientation_marker t bb "right" len =
          [.setColor BORDER_COLOR, .setLineWidth DEFAULT_LINE_WIDTH,
           .newPath, .moveTo ⟨rect.x0 + rect.width, rect.center.y⟩,
           .lineTo ⟨rect.x0 + rect.width + len, rect.center.y⟩, .stroke] ∧
        draw_orientation_marker t bb "up" len =
          [.setColor BORDER_COLOR, .setLineWidth DEFAULT_LINE_WIDTH,
           .newPath, .moveTo ⟨rect.center.x, rect.y0 - len⟩,
           .lineTo ⟨rect.center.x, rect.y0⟩, .stroke] ∧
        draw_orientation_marker t bb "down" len =
          [.setColor BORDER_COLOR, .setLineWidth DEFAULT_LINE_WIDTH,
           .newPath, .moveTo ⟨rect.center.x, rect.y0 + rect.height⟩,
           .lineTo ⟨rect.center.x, rect.y0 + rect.height + len⟩,
           .stroke])) := by
  refine ⟨⟨rfl, rfl, rfl⟩, ?_, fun o c => rfl, ⟨rfl, rfl, rfl, rfl, rfl⟩,
    ?_, ?_, ?_⟩
  · intro c h1 h2 h3
    unfold port_connector_len_px_for_class
    split
    · exact absurd rfl h1
    · exact absurd rfl h2
    · exact absurd rfl h3
    · rfl
  · intro c h1 h2 h3 h4 h5
    simp [effective_orientation, h1, h2, h3, h4, h5]
  · intro M t sc g cs bb hbb
    refine ⟨glyph_shape_ops M t bb
        (if ((if strEndsWith g.class_name " multimer" then
              strDropSuffix g.class_name " multimer" else g.class_name) ==
             "complex" || g.class_name == "compartment") then ""
         else effective_label g)
        (glyph_font_px g.class_name) g.class_name
        (if strEndsWith g.class_name " multimer" then
          strDropSuffix g.class_name " multimer" else g.class_name)
        (strEndsWith g.class_name " multimer") (sc && g.has_clone)
        (if cs.rootGlyphs.any (fun c =>
            c.class_name == "unit of information" && c.bbox.isSome) then none
         else first_child_label cs.rootGlyphs "unit of information")
        (if cs.rootGlyphs.any (fun c =>
            c.class_name == "state variable" && c.bbox.isSome) then none
         else first_child_state_label cs.rootGlyphs "state variable"),
      (if ((if strEndsWith g.class_name " multimer" then
            strDropSuffix g.class_name " multimer" else g.class_name) ==
           "complex" || g.class_name == "compartment") then
        draw_text_bottom_centered M (bbox_pixel_rect t bb) (effective_label g)
          (glyph_font_px g.class_name)
       else []) ++ render_structural_children M t sc cs, ?_⟩
    simp only [render_glyph_tree, hbb]
    rw [List.append_assoc, List.append_assoc]
  · rintro t bb len rect rfl
    exact ⟨rfl, rfl, rfl, rfl, rfl, rfl⟩

/-! ## C2: degenerate final arc segments -/

lemma idx_last (qs : List Point) (a b : Point) :
    (qs ++ [a, b])[(qs ++ [a, b]).length - 1]! = b := by
  have hlt : (qs ++ [a, b]).length - 1 < (qs ++ [a, b]).length := by simp
  rw [getElem!_pos (qs ++ [a, b]) ((qs ++ [a, b]).length - 1) hlt]
  rw [List.getElem_append_right (by simp)]
  simp

lemma idx_prev (qs : List Point) (a b : Point) :
    (qs ++ [a, b])[(qs ++ [a, b]).length - 2]! = a := by
  have hlt : (qs ++ [a, b]).length - 2 < (qs ++ [a, b]).length := by simp
  rw [getElem!_pos (qs ++ [a, b]) ((qs ++ [a, b]).length - 2) hlt]
  rw [List.getElem_append_right (by simp)]
  simp

/-- `draw_arc` on a list with at least two points: polyline plus the
decoration at the last two points. -/
lemma draw_arc_append_two (qs : List Point) (a b : Point) (c : String)
    (arrow bar off : ℚ) :
    draw_arc (qs ++ [a, b]) c arrow bar off =
      [Op.setColor BORDER_COLOR, Op.setLineWidth DEFAULT_LINE_WIDTH] ++
      segment_ops (qs ++ [a, b]) ++ arc_decoration_ops c b a arrow bar off := by
  simp only [draw_arc]
  rw [if_neg (by simp), idx_last, idx_prev]

lemma arc_dec_assignment (e q : Point) (a b o : ℚ) :
    arc_decoration_ops "assignment" e q a b o = draw_open_triangle e q a := rfl
lemma arc_dec_unknown (e q : Point) (a b o : ℚ) :
    arc_decoration_ops "unknown influence" e q a b o =
      draw_open_triangle e q a := rfl
lemma arc_dec_positive (e q : Point) (a b o : ℚ) :
    arc_decoration_ops "positive influence" e q a b o =
      draw_open_triangle_opaque e q a := rfl
lemma arc_dec_stimulation (e q : Point) (a b o : ℚ) :
    arc_decoration_ops "stimulation" e q a b o =
      draw_open_triangle_opaque e q a := rfl
lemma arc_dec_production (e q : Point) (a b o : ℚ) :
    arc_decoration_ops "production" e q a b o =
      draw_filled_triangle e q a := rfl
lemma arc_dec_negative (e q : Point) (a b o : ℚ) :
    arc_decoration_ops "negative influence" e q a b o =
      draw_inhibition_bar e q b 0 := rfl
lemma arc_dec_inhibition (e q : Point) (a b o : ℚ) :
    arc_decoration_ops "inhibition" e q a b o =
      draw_inhibition_bar e q b 0 := rfl
lemma arc_dec_absolute (e q : Point) (a b o : ℚ) :
    arc_decoration_ops "absolute inhibition" e q a b o =
      draw_inhibition_bar e q b 0 ++ draw_inhibition_bar e q b o := rfl
lemma arc_dec_necessary (e q : Point) (a b o : ℚ) :
    arc_decoration_ops "necessary stimulation" e q a b o =
      draw_inhibition_bar e q b o ++ draw_open_triangle_opaque e q a := rfl
lemma arc_dec_catalysis (e q : Point) (a b o : ℚ) :
    arc_decoration_ops "catalysis" e q a b o =
      draw_filled_circle_tangent e q (a * 4/10) := rfl
lemma arc_dec_equivalence (e q : Point) (a b o : ℚ) :
    arc_decoration_ops "equivalence arc" e q a b o =
      draw_open_circle e (a * 4/10) := rfl

lemma open_triangle_self (q : Point) (s : ℚ) :
    draw_open_triangle q q s = [] := by
  norm_num [draw_open_triangle]

lemma open_triangle_opaque_self (q : Point) (s : ℚ) :
    draw_open_triangle_opaque q q s = [] := by
  norm_num [ draw_open_triangle_opaque]

lemma filled_triangle_self (q : Point) (s : ℚ) :
    draw_filled_triangle q q s = [] := by
  norm_num [draw_filled_triangle]

lemma inhibition_bar_self (q : Point) (len off : ℚ) :
    draw_inhibition_bar q q len off = [] := by
  norm_num [draw_inhibition_bar]

lemma filled_circle_tangent_self (q : Point) (r : ℚ) :
    draw_filled_circle_tangent q q r = draw_filled_circle q r := by
  norm_num [draw_filled_circle_tangent]

/-- C2 counterexample.  On the arc (0,0)→(5,5)→(5,5), whose last two points
coincide, the catalysis decoration is NOT skipped: a filled circle is drawn
at the endpoint (and the equivalence-arc circle is likewise drawn), contrary
to the claim that every decoration-bearing class skips its decoration. -/
theorem degenerate_catalysis_decoration_cex :
    Op.arcPath ⟨5, 5⟩ 4 0 2 ∈
      draw_arc [⟨0, 0⟩, ⟨5, 5⟩, ⟨5, 5⟩] "catalysis" 10 1 1 ∧
    Op.arcPath ⟨5, 5⟩ 4 0 2 ∈
      draw_arc [⟨0, 0⟩, ⟨5, 5⟩, ⟨5, 5⟩] "equivalence arc" 10 1 1 := by
  constructor
  · show Op.arcPath ⟨5, 5⟩ 4 0 2 ∈
      draw_arc ([⟨0, 0⟩] ++ [⟨5, 5⟩, ⟨5, 5⟩]) "catalysis" 10 1 1
    rw [draw_arc_append_two, arc_dec_catalysis, filled_circle_tangent_self]
    norm_num [draw_filled_circle, segment_ops]
  · show Op.arcPath ⟨5, 5⟩ 4 0 2 ∈
      draw_arc ([⟨0, 0⟩] ++ [⟨5, 5⟩, ⟨5, 5⟩]) "equivalence arc" 10 1 1
    rw [draw_arc_append_two, arc_dec_equivalence]
    norm_num [draw_open_circle, segment_ops]

/-- C2 (amended).  For every arc whose last two points coincide, drawing
never fails and produces the stroked polyline; the direction-dependent
decorations (all triangle and bar classes) are skipped silently, while
catalysis falls back to its filled circle drawn at the endpoint itself and
the equivalence arc draws its (direction-independent) open circle at the
endpoint. -/
theorem degenerate_arc_decorations (qs : List Point) (q : Point)
    (arrow bar off : ℚ) :
    (∀ c : String,
      c ∈ ["assignment", "unknown influence", "positive influence",
        "stimulation", "production", "negative influence", "inhibition",
        "absolute inhibition", "necessary stimulation"] →
      draw_arc (qs ++ [q, q]) c arrow bar off =
        [Op.setColor BORDER_COLOR, Op.setLineWidth DEFAULT_LINE_WIDTH] ++
        segment_ops (qs ++ [q, q])) ∧
    draw_arc (qs ++ [q, q]) "catalysis" arrow bar off =
      [Op.setColor BORDER_COLOR, Op.setLineWidth DEFAULT_LINE_WIDTH] ++
      segment_ops (qs ++ [q, q]) ++ draw_filled_circle q (arrow * 4/10) ∧
    draw_arc (qs ++ [q, q]) "equivalence arc" arrow bar off =
      [Op.setColor BORDER_COLOR, Op.setLineWidth DEFAULT_LINE_WIDTH] ++
      segment_ops (qs ++ [q, q]) ++ draw_open_circle q (arrow * 4/10) := by
  refine ⟨?_, ?_, ?_⟩
  · intro c hc
    fin_cases hc <;>
      rw [draw_arc_append_two] <;>
      simp only [arc_dec_assignment, arc_dec_unknown, arc_dec_positive,
        arc_dec_stimulation, arc_dec_production, arc_dec_negative,
        arc_dec_inhibition, arc_dec_absolute, arc_dec_necessary,
        open_triangle_self, open_triangle_opaque_self, filled_triangle_self,
        inhibition_bar_self, List.append_nil]
  · rw [draw_arc_append_two, arc_dec_catalysis, filled_circle_tangent_self]
  · rw [draw_arc_append_two, arc_dec_equivalence]

/-! ## C5: triangle decoration geometry -/

set_option maxHeartbeats 1000000 in
/-- C5.  For a non-degenerate final segment, `triangle_points` yields a
decoration whose tip is exactly the arc's final coordinate; the base
(p1, p2) is perpendicular to the segment direction, its midpoint lies on
the line through the tip along the direction, `size` units behind the tip
(on the side of the second-to-last point), and each base corner is
0.6·size from the base midpoint, placed symmetrically. -/
theorem triangle_decoration_geometry (e q : RPoint) (size : ℝ)
    (hne : (e.x - q.x) * (e.x - q.x) + (e.y - q.y) * (e.y - q.y) ≠ 0)
    (hsz : 0 < size) :
    ∃ p1 p2 tip, triangle_points e q size = some (p1, p2, tip) ∧
      tip = e ∧
      (p1.x - p2.x) * (e.x - q.x) + (p1.y - p2.y) * (e.y - q.y) = 0 ∧
      (e.x - (p1.x + p2.x) / 2) * (e.y - q.y) -
        (e.y - (p1.y + p2.y) / 2) * (e.x - q.x) = 0 ∧
      (e.x - (p1.x + p2.x) / 2) ^ 2 + (e.y - (p1.y + p2.y) / 2) ^ 2 =
        size ^ 2 ∧
      0 < (e.x - (p1.x + p2.x) / 2) * (e.x - q.x) +
        (e.y - (p1.y + p2.y) / 2) * (e.y - q.y) ∧
      (p1.x - (p1.x + p2.x) / 2) ^ 2 + (p1.y - (p1.y + p2.y) / 2) ^ 2 =
        (6 / 10 * size) ^ 2 ∧
      p2.x - (p1.x + p2.x) / 2 = -(p1.x - (p1.x + p2.x) / 2) ∧
      p2.y - (p1.y + p2.y) / 2 = -(p1.y - (p1.y + p2.y) / 2) := by
  have hnn : (0:ℝ) ≤ (e.x - q.x) * (e.x - q.x) + (e.y - q.y) * (e.y - q.y) :=
    add_nonneg (mul_self_nonneg _) (mul_self_nonneg _)
  have hpos : (0:ℝ) < (e.x - q.x) * (e.x - q.x) + (e.y - q.y) * (e.y - q.y) :=
    lt_of_le_of_ne hnn (Ne.symm hne)
  have hL : 0 < Real.sqrt ((e.x - q.x) * (e.x - q.x) + (e.y - q.y) * (e.y - q.y)) :=
    Real.sqrt_pos.mpr hpos
  have hL2 : Real.sqrt ((e.x - q.x) * (e.x - q.x) + (e.y - q.y) * (e.y - q.y)) *
      Real.sqrt ((e.x - q.x) * (e.x - q.x) + (e.y - q.y) * (e.y - q.y)) =
      (e.x - q.x) * (e.x - q.x) + (e.y - q.y) * (e.y - q.y) :=
    Real.mul_self_sqrt hnn
  set dx := e.x - q.x with hdx
  set dy := e.y - q.y with hdy
  set L := Real.sqrt (dx * dx + dy * dy) with hLdef
  have hL2' : L ^ 2 = dx * dx + dy * dy := by rw [sq]; exact hL2
  have hLne : L ≠ 0 := hL.ne'
  have hinv : L * L⁻¹ = 1 := mul_inv_cancel₀ hLne
  have heq : triangle_points e q size =
      some (⟨e.x - dx / L * size + -(dy / L) * (size * (6/10)),
             e.y - dy / L * size + dx / L * (size * (6/10))⟩,
            ⟨e.x - dx / L * size - -(dy / L) * (size * (6/10)),
             e.y - dy / L * size - dx / L * (size * (6/10))⟩, e) := by
    simp only [triangle_points]
    rw [if_neg hLne]
  refine ⟨_, _, _, heq, rfl, ?_, ?_, ?_, ?_, ?_, ?_, ?_⟩ <;> simp only []
  · ring
  · ring
  · linear_combination ((-(size^2)) / L^2) * hL2' +
      (size^2 * (L * L⁻¹ + 1)) * hinv
  · have key : (e.x - ((e.x - dx / L * size + -(dy / L) * (size * (6/10))) +
        (e.x - dx / L * size - -(dy / L) * (size * (6/10)))) / 2) * dx +
        (e.y - ((e.y - dy / L * size + dx / L * (size * (6/10))) +
        (e.y - dy / L * size - dx / L * (size * (6/10)))) / 2) * dy =
        size * (dx * dx + dy * dy) / L := by ring
    rw [key]
    exact div_pos (mul_pos hsz hpos) hL
  · linear_combination ((-((size * (6/10))^2)) / L^2) * hL2' +
      ((size * (6/10))^2 * (L * L⁻¹ + 1)) * hinv
  · ring
  · ring

/-- Closed instantiation of C5 at e = (3,0), q = (0,0), size = 2. -/
theorem triangle_decoration_geometry_witness :
    ∃ p1 p2 tip, triangle_points ⟨3, 0⟩ ⟨0, 0⟩ 2 = some (p1, p2, tip) ∧
      tip = (⟨3, 0⟩ : RPoint) := by
  obtain ⟨p1, p2, tip, h1, h2, -⟩ :=
    triangle_decoration_geometry ⟨3, 0⟩ ⟨0, 0⟩ 2 (by norm_num) (by norm_num)
  exact ⟨p1, p2, tip, h1, h2⟩

/-! ## C10: glyphs without a bounding box -/

/-- The absolute-position pass on a unit-of-information glyph with its own
box. -/
lemma render_aux_glyph_u_info (M : TextMeasure) (t : Transform) (sc : Bool)
    (g : Glyph) (bb : BBox) (h1 : g.class_name = "unit of information")
    (h2 : g.bbox = some bb) :
    render_aux_glyph M t sc g =
      draw_round_rect_bbox M t bb g.label FONT_SMALL_PX (sc && g.has_clone) := by
  unfold render_aux_glyph
  rw [h2, h1]
  rfl

/-- C10.  A glyph without a bounding box makes the recursive renderer emit
nothing at all — its structural children are not visited, so descendants
with their own boxes stay undrawn by the recursive pass; but a
unit-of-information descendant carrying its own box is still drawn by the
separate absolute-position pass (for a box-less parent, the whole render
of the two-glyph document is exactly that one auxiliary box). -/
theorem boxless_glyph_subtree_unrendered :
    (∀ (M : TextMeasure) (t : Transform) (sc : Bool) (g : Glyph)
      (cs : GForest), g.bbox = none →
      render_glyph_tree M t sc (.node g cs) = []) ∧
    (∀ (M : TextMeasure) (t : Transform) (sc : Bool) (g child : Glyph)
      (bb : BBox), g.bbox = none →
      child.class_name = "unit of information" → child.bbox = some bb →
      render_sbgnml M t
        (.cons (.node g (.cons (.node child .nil) .nil)) .nil) [] sc =
        draw_round_rect_bbox M t bb child.label FONT_SMALL_PX
          (sc && child.has_clone)) := by
  have hnone : ∀ (M : TextMeasure) (t : Transform) (sc : Bool) (g : Glyph)
      (cs : GForest), g.bbox = none →
      render_glyph_tree M t sc (.node g cs) = [] := by
    intro M t sc g cs h
    simp only [render_glyph_tree, h]
  refine ⟨hnone, ?_⟩
  intro M t sc g child bb hg hc hb
  have hroot := hnone M t sc g (.cons (.node child .nil) .nil) hg
  simp [render_sbgnml, render_roots, hroot, glyphsWithParent, preorderForest,
    preorderTree, GTree.children, hc,
    render_aux_glyph_u_info M t sc child bb hc hb]

/-! ## C1: auxiliary separator-line presence -/

lemma lineTo_not_mem_text_at (P : Point) (x y : ℚ) (s : String) (f : ℚ) :
    Op.lineTo P ∉ draw_text_at x y s f := by
  simp [draw_text_at, TEXT_OUTLINE_WIDTH]

lemma lineTo_not_mem_text_centered (M : TextMeasure) (P c : Point)
    (s : String) (f : ℚ) :
    Op.lineTo P ∉ draw_text_centered M c s f := by
  unfold draw_text_centered
  split
  · simp
  · apply lineTo_not_mem_text_at

lemma lineTo_mem_overlay_line (P : Point) (rect : PixelRect) (y w : ℚ)
    (c : Color) :
    Op.lineTo P ∈ draw_overlay_line rect y w c ↔ P = ⟨rect.x0 + rect.width, y⟩ := by
  simp [draw_overlay_line, eq_comm]

lemma lineTo_not_mem_roundRect (P : Point) (bx b_y bw bh rIn : ℚ)
    (hbh : 0 < bh) (hrIn : 0 < rIn) (hbw : 0 < bw)
    (h1 : P.y ≠ b_y) (h3 : P.y ≠ b_y + bh)
    (h2 : ∀ z, b_y + bh / 2 ≤ z → z < b_y + bh → P.y ≠ z)
    (h4 : P.x ≠ bx) :
    Op.lineTo P ∉ path_round_rect_impl bx b_y bw bh rIn := by
  have hr0 : 0 < min (min rIn (bw / 2)) (bh / 2) :=
    lt_min (lt_min hrIn (by positivity)) (by positivity)
  have hr2 : min (min rIn (bw / 2)) (bh / 2) ≤ bh / 2 := min_le_right _ _
  simp only [path_round_rect_impl, List.mem_cons, List.not_mem_nil, or_false,
    not_or]
  refine ⟨by simp, by simp, ?_, by simp, ?_, by simp, ?_, by simp, ?_,
    by simp, by simp⟩
  · simp only [Op.lineTo.injEq]
    rintro rfl
    exact h1 rfl
  · simp only [Op.lineTo.injEq]
    rintro rfl
    exact h2 (b_y + bh - min (min rIn (bw / 2)) (bh / 2)) (by linarith)
      (by linarith) rfl
  · simp only [Op.lineTo.injEq]
    rintro rfl
    exact h3 rfl
  · simp only [Op.lineTo.injEq]
    rintro rfl
    exact h4 rfl

lemma lineTo_not_mem_unit_info (M : TextMeasure) (P : Point)
    (x y h : ℚ) (label : String) (bw fpx pad : ℚ) (hh : 0 < h)
    (h1 : P.y ≠ y) (h3 : P.y ≠ y + h)
    (h2 : ∀ z, y + h / 2 ≤ z → z < y + h → P.y ≠ z)
    (h4 : P.x ≠ x) :
    Op.lineTo P ∉ draw_unit_info M x y h label bw fpx pad := by
  have hw : (0:ℚ) < max (measure_text_width M label fpx + pad) 10 :=
    lt_of_lt_of_le (by norm_num) (le_max_right _ _)
  intro hmem
  simp only [draw_unit_info, List.mem_append] at hmem
  rcases hmem with ((((h5 | h5) | h5) | h5) | h5)
  · simp at h5
  · exact lineTo_not_mem_roundRect P x y _ h _ hh (by positivity) hw h1 h3
      h2 h4 h5
  · simp at h5
  · exact lineTo_not_mem_text_centered M P _ label fpx h5
  · simp at h5

lemma lineTo_not_mem_state_var (M : TextMeasure) (P : Point)
    (x y h : ℚ) (label : String) (bw fpx pad mw : ℚ) (hh : 0 < h)
    (hmw : 0 < mw)
    (h1 : P.y ≠ y) (h3 : P.y ≠ y + h)
    (h2 : ∀ z, y + h / 2 ≤ z → z < y + h → P.y ≠ z)
    (h4 : P.x ≠ x) :
    Op.lineTo P ∉ draw_state_var M x y h label bw fpx pad mw := by
  have hw : (0:ℚ) < max (measure_text_width M label fpx + pad) mw :=
    lt_of_lt_of_le hmw (le_max_right _ _)
  intro hmem
  simp only [draw_state_var, List.mem_append] at hmem
  rcases hmem with ((((h5 | h5) | h5) | h5) | h5)
  · simp at h5
  · exact lineTo_not_mem_roundRect P x y _ h _ hh (by positivity) hw h1 h3
      h2 h4 h5
  · simp at h5
  · exact lineTo_not_mem_text_centered M P _ label fpx h5
  · simp at h5


lemma aux_table_macromolecule (M : TextMeasure) (rect : PixelRect)
    (u s : Option String) (hw : 0 < rect.width) (hh : 0 < rect.height) :
    (Op.lineTo ⟨rect.x0 + rect.width, px_y rect 8 (rect.height / 48)⟩ ∈
        draw_entity_pool_aux_items M rect "macromolecule" u s ↔
        (u.isSome = true ∨ s.isSome = true)) ∧
    (Op.lineTo ⟨rect.x0 + rect.width, px_y rect 52 (rect.height / 48)⟩ ∈
        draw_entity_pool_aux_items M rect "macromolecule" u s ↔
        u.isSome = true) := by
  have hdef : ∀ u' s' : Option String,
      draw_entity_pool_aux_items M rect "macromolecule" u' s' =
      (if u'.isSome || s'.isSome then
        draw_overlay_line rect (px_y rect 8 (rect.height / 48))
          (1 * ((rect.width / 96 + rect.height / 48) / 2)) AUX_LINE_COLOR
       else []) ++
      (if u'.isSome then
        draw_overlay_line rect (px_y rect 52 (rect.height / 48))
          (1 * ((rect.width / 96 + rect.height / 48) / 2)) AUX_LINE_COLOR
       else []) ++
      (match u' with
       | some label =>
         draw_unit_info M (px_x rect 20 (rect.width / 96))
           (px_y rect 44 (rect.height / 48))
           (20 * (rect.height / 48) - 3 * (rect.height / 48)) label
           (2 * ((rect.width / 96 + rect.height / 48) / 2))
           (10 * ((rect.width / 96 + rect.height / 48) / 2))
           (5 * ((rect.width / 96 + rect.height / 48) / 2))
       | none => []) ++
      (match s' with
       | some label =>
         draw_state_var M (px_x rect 40 (rect.width / 96)) rect.y0
           (20 * (rect.height / 48) - 3 * (rect.height / 48)) label
           (2 * ((rect.width / 96 + rect.height / 48) / 2))
           (10 * ((rect.width / 96 + rect.height / 48) / 2))
           (10 * ((rect.width / 96 + rect.height / 48) / 2))
           (30 * ((rect.width / 96 + rect.height / 48) / 2))
       | none => []) := fun u' s' => rfl
  have hsy : 0 < rect.height / 48 := by positivity
  have hsx : 0 < rect.width / 96 := by positivity
  have hwsx : rect.width = 96 * (rect.width / 96) := by ring
  have hbh : 0 < 20 * (rect.height / 48) - 3 * (rect.height / 48) := by
    linarith
  have hU8 : ∀ lab, Op.lineTo
      ⟨rect.x0 + rect.width, px_y rect 8 (rect.height / 48)⟩ ∉
      draw_unit_info M (px_x rect 20 (rect.width / 96))
        (px_y rect 44 (rect.height / 48))
        (20 * (rect.height / 48) - 3 * (rect.height / 48)) lab
        (2 * ((rect.width / 96 + rect.height / 48) / 2))
        (10 * ((rect.width / 96 + rect.height / 48) / 2))
        (5 * ((rect.width / 96 + rect.height / 48) / 2)) := by
    intro lab
    refine lineTo_not_mem_unit_info M _ _ _ _ lab _ _ _ hbh ?_ ?_ ?_ ?_
    · simp only [px_y]; intro hEq; nlinarith [hsy]
    · simp only [px_y]; intro hEq; nlinarith [hsy]
    · simp only [px_y]; intro z hz1 hz2 hEq; nlinarith [hsy]
    · simp only [px_x]; intro hEq; nlinarith [hsx]
  have hU52 : ∀ lab, Op.lineTo
      ⟨rect.x0 + rect.width, px_y rect 52 (rect.height / 48)⟩ ∉
      draw_unit_info M (px_x rect 20 (rect.width / 96))
        (px_y rect 44 (rect.height / 48))
        (20 * (rect.height / 48) - 3 * (rect.height / 48)) lab
        (2 * ((rect.width / 96 + rect.height / 48) / 2))
        (10 * ((rect.width / 96 + rect.height / 48) / 2))
        (5 * ((rect.width / 96 + rect.height / 48) / 2)) := by
    intro lab
    refine lineTo_not_mem_unit_info M _ _ _ _ lab _ _ _ hbh ?_ ?_ ?_ ?_
    · simp only [px_y]; intro hEq; nlinarith [hsy]
    · simp only [px_y]; intro hEq; nlinarith [hsy]
    · simp only [px_y]; intro z hz1 hz2 hEq; nlinarith [hsy]
    · simp only [px_x]; intro hEq; nlinarith [hsx]
  have hS8 : ∀ lab, Op.lineTo
      ⟨rect.x0 + rect.width, px_y rect 8 (rect.height / 48)⟩ ∉
      draw_state_var M (px_x rect 40 (rect.width / 96)) rect.y0
        (20 * (rect.height / 48) - 3 * (rect.height / 48)) lab
        (2 * ((rect.width / 96 + rect.height / 48) / 2))
        (10 * ((rect.width / 96 + rect.height / 48) / 2))
        (10 * ((rect.width / 96 + rect.height / 48) / 2))
        (30 * ((rect.width / 96 + rect.height / 48) / 2)) := by
    intro lab
    refine lineTo_not_mem_state_var M _ _ _ _ lab _ _ _ _ hbh
      (by positivity) ?_ ?_ ?_ ?_
    · simp only [px_y]; intro hEq; nlinarith [hsy]
    · simp only [px_y]; intro hEq; nlinarith [hsy]
    · simp only [px_y]; intro z hz1 hz2 hEq; nlinarith [hsy]
    · simp only [px_x]; intro hEq; nlinarith [hsx]
  have hS52 : ∀ lab, Op.lineTo
      ⟨rect.x0 + rect.width, px_y rect 52 (rect.height / 48)⟩ ∉
      draw_state_var M (px_x rect 40 (rect.width / 96)) rect.y0
        (20 * (rect.height / 48) - 3 * (rect.height / 48)) lab
        (2 * ((rect.width / 96 + rect.height / 48) / 2))
        (10 * ((rect.width / 96 + rect.height / 48) / 2))
        (10 * ((rect.width / 96 + rect.height / 48) / 2))
        (30 * ((rect.width / 96 + rect.height / 48) / 2)) := by
    intro lab
    refine lineTo_not_mem_state_var M _ _ _ _ lab _ _ _ _ hbh
      (by positivity) ?_ ?_ ?_ ?_
    · simp only [px_y]; intro hEq; nlinarith [hsy]
    · simp only [px_y]; intro hEq; nlinarith [hsy]
    · simp only [px_y]; intro z hz1 hz2 hEq; nlinarith [hsy]
    · simp only [px_x]; intro hEq; nlinarith [hsx]
  have hL2_8 : Op.lineTo
      ⟨rect.x0 + rect.width, px_y rect 8 (rect.height / 48)⟩ ∉
      draw_overlay_line rect (px_y rect 52 (rect.height / 48))
        (1 * ((rect.width / 96 + rect.height / 48) / 2)) AUX_LINE_COLOR := by
    rw [lineTo_mem_overlay_line]
    intro hEq
    rw [Point.mk.injEq] at hEq
    obtain ⟨-, hy⟩ := hEq
    simp only [px_y] at hy
    nlinarith [hsy]
  have hL1_52 : Op.lineTo
      ⟨rect.x0 + rect.width, px_y rect 52 (rect.height / 48)⟩ ∉
      draw_overlay_line rect (px_y rect 8 (rect.height / 48))
        (1 * ((rect.width / 96 + rect.height / 48) / 2)) AUX_LINE_COLOR := by
    rw [lineTo_mem_overlay_line]
    intro hEq
    rw [Point.mk.injEq] at hEq
    obtain ⟨-, hy⟩ := hEq
    simp only [px_y] at hy
    nlinarith [hsy]
  have hne1 : px_y rect 52 (rect.height / 48) ≠ px_y rect 8 (rect.height / 48) := by
    simp only [px_y]; intro hEq; nlinarith [hsy]
  have hne2 : px_y rect 8 (rect.height / 48) ≠ px_y rect 52 (rect.height / 48) := by
    simp only [px_y]; intro hEq; nlinarith [hsy]
  rcases u with _ | lu <;> rcases s with _ | ls <;>
    simp [hdef, List.mem_append, lineTo_mem_overlay_line, hU8, hU52, hS8,
      hS52, hL2_8, hL1_52, hne1, hne2, Point.mk.injEq]

lemma aux_table_simple_chemical (M : TextMeasure) (rect : PixelRect)
    (u s : Option String) (hw : 0 < rect.width) (hh : 0 < rect.height) :
    (Op.lineTo ⟨rect.x0 + rect.width, px_y rect 8 (rect.height / 48)⟩ ∈
        draw_entity_pool_aux_items M rect "simple chemical" u s ↔ u.isSome = true) ∧
    (Op.lineTo ⟨rect.x0 + rect.width, px_y rect 52 (rect.height / 48)⟩ ∈
        draw_entity_pool_aux_items M rect "simple chemical" u s ↔ u.isSome = true) := by
  have hdef : ∀ u' s' : Option String,
      draw_entity_pool_aux_items M rect "simple chemical" u' s' =
      (if u'.isSome then
        draw_overlay_line rect (px_y rect 8 (rect.height / 48)) (1 * ((rect.width / 48 + rect.height / 48) / 2)) AUX_LINE_COLOR
       else []) ++
      (if u'.isSome then
        draw_overlay_line rect (px_y rect 52 (rect.height / 48)) (1 * ((rect.width / 48 + rect.height / 48) / 2)) AUX_LINE_COLOR
       else []) ++
      (match u' with
       | some label =>
         draw_unit_info M (px_x rect 12 (rect.width / 48)) (px_y rect 0 (rect.height / 48))
           (20 * (rect.height / 48) - 3 * (rect.height / 48)) label (2 * ((rect.width / 48 + rect.height / 48) / 2)) (10 * ((rect.width / 48 + rect.height / 48) / 2)) (5 * ((rect.width / 48 + rect.height / 48) / 2))
       | none => []) := fun u' s' => rfl
  have hsy : 0 < (rect.height / 48) := by positivity
  have hsx : 0 < (rect.width / 48) := by positivity
  have hwsx : rect.width = 48 * (rect.width / 48) := by ring
  have hbh : 0 < 20 * (rect.height / 48) - 3 * (rect.height / 48) := by linarith
  have hU8 : ∀ lab, Op.lineTo
      ⟨rect.x0 + rect.width, px_y rect 8 (rect.height / 48)⟩ ∉
      draw_unit_info M (px_x rect 12 (rect.width / 48)) (px_y rect 0 (rect.height / 48))
        (20 * (rect.height / 48) - 3 * (rect.height / 48)) lab
        (2 * ((rect.width / 48 + rect.height / 48) / 2))
        (10 * ((rect.width / 48 + rect.height / 48) / 2))
        (5 * ((rect.width / 48 + rect.height / 48) / 2)) := by
    intro lab
    refine lineTo_not_mem_unit_info M _ _ _ _ lab _ _ _ hbh ?_ ?_ ?_ ?_
    · simp only [px_y]; intro hEq; nlinarith [hsy]
    · simp only [px_y]; intro hEq; nlinarith [hsy]
    · simp only [px_y]; intro z hz1 hz2 hEq; nlinarith [hsy]
    · simp only [px_x]; intro hEq; nlinarith [hsx]
  have hU52 : ∀ lab, Op.lineTo
      ⟨rect.x0 + rect.width, px_y rect 52 (rect.height / 48)⟩ ∉
      draw_unit_info M (px_x rect 12 (rect.width / 48)) (px_y rect 0 (rect.height / 48))
        (20 * (rect.height / 48) - 3 * (rect.height / 48)) lab
        (2 * ((rect.width / 48 + rect.height / 48) / 2))
        (10 * ((rect.width / 48 + rect.height / 48) / 2))
        (5 * ((rect.width / 48 + rect.height / 48) / 2)) := by
    intro lab
    refine lineTo_not_mem_unit_info M _ _ _ _ lab _ _ _ hbh ?_ ?_ ?_ ?_
    · simp only [px_y]; intro hEq; nlinarith [hsy]
    · simp only [px_y]; intro hEq; nlinarith [hsy]
    · simp only [px_y]; intro z hz1 hz2 hEq; nlinarith [hsy]
    · simp only [px_x]; intro hEq; nlinarith [hsx]
  have hL2_8 : Op.lineTo
      ⟨rect.x0 + rect.width, px_y rect 8 (rect.height / 48)⟩ ∉
      draw_overlay_line rect (px_y rect 52 (rect.height / 48)) (1 * ((rect.width / 48 + rect.height / 48) / 2)) AUX_LINE_COLOR := by
    rw [lineTo_mem_overlay_line]
    intro hEq
    rw [Point.mk.injEq] at hEq
    obtain ⟨-, hy⟩ := hEq
    simp only [px_y] at hy
    nlinarith [hsy]
  have hL1_52 : Op.lineTo
      ⟨rect.x0 + rect.width, px_y rect 52 (rect.height / 48)⟩ ∉
      draw_overlay_line rect (px_y rect 8 (rect.height / 48)) (1 * ((rect.width / 48 + rect.height / 48) / 2)) AUX_LINE_COLOR := by
    rw [lineTo_mem_overlay_line]
    intro hEq
    rw [Point.mk.injEq] at hEq
    obtain ⟨-, hy⟩ := hEq
    simp only [px_y] at hy
    nlinarith [hsy]
  have hne1 : px_y rect 52 (rect.height / 48) ≠ px_y rect 8 (rect.height / 48) := by
    simp only [px_y]; intro hEq; nlinarith [hsy]
  have hne2 : px_y rect 8 (rect.height / 48) ≠ px_y rect 52 (rect.height / 48) := by
    simp only [px_y]; intro hEq; nlinarith [hsy]
  rcases u with _ | lu <;> rcases s with _ | ls <;>
    simp [hdef, List.mem_append, lineTo_mem_overlay_line, hU8, hU52, 
      hL2_8, hL1_52, hne1, hne2, Point.mk.injEq]

lemma aux_table_unspecified_entity (M : TextMeasure) (rect : PixelRect)
    (u s : Option String) (hw : 0 < rect.width) (hh : 0 < rect.height) :
    (Op.lineTo ⟨rect.x0 + rect.width, px_y rect 8 (rect.height / 32)⟩ ∈
        draw_entity_pool_aux_items M rect "unspecified entity" u s ↔ (u.isSome = true ∨ s.isSome = true)) ∧
    (Op.lineTo ⟨rect.x0 + rect.width, px_y rect 52 (rect.height / 32)⟩ ∈
        draw_entity_pool_aux_items M rect "unspecified entity" u s ↔ u.isSome = true) := by
  have hdef : ∀ u' s' : Option String,
      draw_entity_pool_aux_items M rect "unspecified entity" u' s' =
      (if u'.isSome || s'.isSome then
        draw_overlay_line rect (px_y rect 8 (rect.height / 32)) (1 * ((rect.width / 32 + rect.height / 32) / 2)) AUX_LINE_COLOR
       else []) ++
      (if u'.isSome then
        draw_overlay_line rect (px_y rect 52 (rect.height / 32)) (1 * ((rect.width / 32 + rect.height / 32) / 2)) AUX_LINE_COLOR
       else []) ++
      (match u' with
       | some label =>
         draw_unit_info M (px_x rect 20 (rect.width / 32)) (px_y rect 44 (rect.height / 32))
           (20 * (rect.height / 32) - 3 * (rect.height / 32)) label (2 * ((rect.width / 32 + rect.height / 32) / 2)) (10 * ((rect.width / 32 + rect.height / 32) / 2)) (5 * ((rect.width / 32 + rect.height / 32) / 2))
       | none => []) ++
      (match s' with
       | some label =>
         draw_state_var M (px_x rect 40 (rect.width / 32)) rect.y0
           (20 * (rect.height / 32) - 3 * (rect.height / 32)) label (2 * ((rect.width / 32 + rect.height / 32) / 2)) (10 * ((rect.width / 32 + rect.height / 32) / 2)) (10 * ((rect.width / 32 + rect.height / 32) / 2)) (30 * ((rect.width / 32 + rect.height / 32) / 2))
       | none => []) := fun u' s' => rfl
  have hsy : 0 < (rect.height / 32) := by positivity
  have hsx : 0 < (rect.width / 32) := by positivity
  have hwsx : rect.width = 32 * (rect.width / 32) := by ring
  have hbh : 0 < 20 * (rect.height / 32) - 3 * (rect.height / 32) := by linarith
  have hU8 : ∀ lab, Op.lineTo
      ⟨rect.x0 + rect.width, px_y rect 8 (rect.height / 32)⟩ ∉
      draw_unit_info M (px_x rect 20 (rect.width / 32)) (px_y rect 44 (rect.height / 32))
        (20 * (rect.height / 32) - 3 * (rect.height / 32)) lab
        (2 * ((rect.width / 32 + rect.height / 32) / 2))
        (10 * ((rect.width / 32 + rect.height / 32) / 2))
        (5 * ((rect.width / 32 + rect.height / 32) / 2)) := by
    intro lab
    refine lineTo_not_mem_unit_info M _ _ _ _ lab _ _ _ hbh ?_ ?_ ?_ ?_
    · simp only [px_y]; intro hEq; nlinarith [hsy]
    · simp only [px_y]; intro hEq; nlinarith [hsy]
    · simp only [px_y]; intro z hz1 hz2 hEq; nlinarith [hsy]
    · simp only [px_x]; intro hEq; nlinarith [hsx]
  have hU52 : ∀ lab, Op.lineTo
      ⟨rect.x0 + rect.width, px_y rect 52 (rect.height / 32)⟩ ∉
      draw_unit_info M (px_x rect 20 (rect.width / 32)) (px_y rect 44 (rect.height / 32))
        (20 * (rect.height / 32) - 3 * (rect.height / 32)) lab
        (2 * ((rect.width / 32 + rect.height / 32) / 2))
        (10 * ((rect.width / 32 + rect.height / 32) / 2))
        (5 * ((rect.width / 32 + rect.height / 32) / 2)) := by
    intro lab
    refine lineTo_not_mem_unit_info M _ _ _ _ lab _ _ _ hbh ?_ ?_ ?_ ?_
    · simp only [px_y]; intro hEq; nlinarith [hsy]
    · simp only [px_y]; intro hEq; nlinarith [hsy]
    · simp only [px_y]; intro z hz1 hz2 hEq; nlinarith [hsy]
    · simp only [px_x]; intro hEq; nlinarith [hsx]
  have hS8 : ∀ lab, Op.lineTo
      ⟨rect.x0 + rect.width, px_y rect 8 (rect.height / 32)⟩ ∉
      draw_state_var M (px_x rect 40 (rect.width / 32)) rect.y0
        (20 * (rect.height / 32) - 3 * (rect.height / 32)) lab
        (2 * ((rect.width / 32 + rect.height / 32) / 2))
        (10 * ((rect.width / 32 + rect.height / 32) / 2))
        (10 * ((rect.width / 32 + rect.height / 32) / 2))
        (30 * ((rect.width / 32 + rect.height / 32) / 2)) := by
    intro lab
    refine lineTo_not_mem_state_var M _ _ _ _ lab _ _ _ _ hbh
      (by positivity) ?_ ?_ ?_ ?_
    · simp only [px_y]; intro hEq; nlinarith [hsy]
    · simp only [px_y]; intro hEq; nlinarith [hsy]
    · simp only [px_y]; intro z hz1 hz2 hEq; nlinarith [hsy]
    · simp only [px_x]; intro hEq; nlinarith [hsx]
  have hS52 : ∀ lab, Op.lineTo
      ⟨rect.x0 + rect.width, px_y rect 52 (rect.height / 32)⟩ ∉
      draw_state_var M (px_x rect 40 (rect.width / 32)) rect.y0
        (20 * (rect.height / 32) - 3 * (rect.height / 32)) lab
        (2 * ((rect.width / 32 + rect.height / 32) / 2))
        (10 * ((rect.width / 32 + rect.height / 32) / 2))
        (10 * ((rect.width / 32 + rect.height / 32) / 2))
        (30 * ((rect.width / 32 + rect.height / 32) / 2)) := by
    intro lab
    refine lineTo_not_mem_state_var M _ _ _ _ lab _ _ _ _ hbh
      (by positivity) ?_ ?_ ?_ ?_
    · simp only [px_y]; intro hEq; nlinarith [hsy]
    · simp only [px_y]; intro hEq; nlinarith [hsy]
    · simp only [px_y]; intro z hz1 hz2 hEq; nlinarith [hsy]
    · simp only [px_x]; intro hEq; nlinarith [hsx]
  have hL2_8 : Op.lineTo
      ⟨rect.x0 + rect.width, px_y rect 8 (rect.height / 32)⟩ ∉
      draw_overlay_line rect (px_y rect 52 (rect.height / 32)) (1 * ((rect.width / 32 + rect.height / 32) / 2)) AUX_LINE_COLOR := by
    rw [lineTo_mem_overlay_line]
    intro hEq
    rw [Point.mk.injEq] at hEq
    obtain ⟨-, hy⟩ := hEq
    simp only [px_y] at hy
    nlinarith [hsy]
  have hL1_52 : Op.lineTo
      ⟨rect.x0 + rect.width, px_y rect 52 (rect.height / 32)⟩ ∉
      draw_overlay_line rect (px_y rect 8 (rect.height / 32)) (1 * ((rect.width / 32 + rect.height / 32) / 2)) AUX_LINE_COLOR := by
    rw [lineTo_mem_overlay_line]
    intro hEq
    rw [Point.mk.injEq] at hEq
    obtain ⟨-, hy⟩ := hEq
    simp only [px_y] at hy
    nlinarith [hsy]
  have hne1 : px_y rect 52 (rect.height / 32) ≠ px_y rect 8 (rect.height / 32) := by
    simp only [px_y]; intro hEq; nlinarith [hsy]
  have hne2 : px_y rect 8 (rect.height / 32) ≠ px_y rect 52 (rect.height / 32) := by
    simp only [px_y]; intro hEq; nlinarith [hsy]
  rcases u with _ | lu <;> rcases s with _ | ls <;>
    simp [hdef, List.mem_append, lineTo_mem_overlay_line, hU8, hU52, hS8, hS52,
      hL2_8, hL1_52, hne1, hne2, Point.mk.injEq]

lemma aux_table_nucleic_acid_feature (M : TextMeasure) (rect : PixelRect)
    (u s : Option String) (hw : 0 < rect.width) (hh : 0 < rect.height) :
    (Op.lineTo ⟨rect.x0 + rect.width, px_y rect 8 (rect.height / 56)⟩ ∈
        draw_entity_pool_aux_items M rect "nucleic acid feature" u s ↔ s.isSome = true) ∧
    (Op.lineTo ⟨rect.x0 + rect.width, px_y rect 52 (rect.height / 56)⟩ ∈
        draw_entity_pool_aux_items M rect "nucleic acid feature" u s ↔ u.isSome = true) := by
  have hdef : ∀ u' s' : Option String,
      draw_entity_pool_aux_items M rect "nucleic acid feature" u' s' =
      (if s'.isSome then
        draw_overlay_line rect (px_y rect 8 (rect.height / 56)) (1 * ((rect.width / 88 + rect.height / 56) / 2)) AUX_LINE_COLOR
       else []) ++
      (if u'.isSome then
        draw_overlay_line rect (px_y rect 52 (rect.height / 56)) (1 * ((rect.width / 88 + rect.height / 56) / 2)) AUX_LINE_COLOR
       else []) ++
      (match u' with
       | some label =>
         draw_unit_info M (px_x rect 20 (rect.width / 88)) (px_y rect 44 (rect.height / 56))
           (20 * (rect.height / 56) - 3 * (rect.height / 56)) label (2 * ((rect.width / 88 + rect.height / 56) / 2)) (10 * ((rect.width / 88 + rect.height / 56) / 2)) (5 * ((rect.width / 88 + rect.height / 56) / 2))
       | none => []) ++
      (match s' with
       | some label =>
         draw_state_var M (px_x rect 40 (rect.width / 88)) rect.y0
           (20 * (rect.height / 56) - 3 * (rect.height / 56)) label (2 * ((rect.width / 88 + rect.height / 56) / 2)) (10 * ((rect.width / 88 + rect.height / 56) / 2)) (10 * ((rect.width / 88 + rect.height / 56) / 2)) (30 * ((rect.width / 88 + rect.height / 56) / 2))
       | none => []) := fun u' s' => rfl
  have hsy : 0 < (rect.height / 56) := by positivity
  have hsx : 0 < (rect.width / 88) := by positivity
  have hwsx : rect.width = 88 * (rect.width / 88) := by ring
  have hbh : 0 < 20 * (rect.height / 56) - 3 * (rect.height / 56) := by linarith
  have hU8 : ∀ lab, Op.lineTo
      ⟨rect.x0 + rect.width, px_y rect 8 (rect.height / 56)⟩ ∉
      draw_unit_info M (px_x rect 20 (rect.width / 88)) (px_y rect 44 (rect.height / 56))
        (20 * (rect.height / 56) - 3 * (rect.height / 56)) lab
        (2 * ((rect.width / 88 + rect.height / 56) / 2))
        (10 * ((rect.width / 88 + rect.height / 56) / 2))
        (5 * ((rect.width / 88 + rect.height / 56) / 2)) := by
    intro lab
    refine lineTo_not_mem_unit_info M _ _ _ _ lab _ _ _ hbh ?_ ?_ ?_ ?_
    · simp only [px_y]; intro hEq; nlinarith [hsy]
    · simp only [px_y]; intro hEq; nlinarith [hsy]
    · simp only [px_y]; intro z hz1 hz2 hEq; nlinarith [hsy]
    · simp only [px_x]; intro hEq; nlinarith [hsx]
  have hU52 : ∀ lab, Op.lineTo
      ⟨rect.x0 + rect.width, px_y rect 52 (rect.height / 56)⟩ ∉
      draw_unit_info M (px_x rect 20 (rect.width / 88)) (px_y rect 44 (rect.height / 56))
        (20 * (rect.height / 56) - 3 * (rect.height / 56)) lab
        (2 * ((rect.width / 88 + rect.height / 56) / 2))
        (10 * ((rect.width / 88 + rect.height / 56) / 2))
        (5 * ((rect.width / 88 + rect.height / 56) / 2)) := by
    intro lab
    refine lineTo_not_mem_unit_info M _ _ _ _ lab _ _ _ hbh ?_ ?_ ?_ ?_
    · simp only [px_y]; intro hEq; nlinarith [hsy]
    · simp only [px_y]; intro hEq; nlinarith [hsy]
    · simp only [px_y]; intro z hz1 hz2 hEq; nlinarith [hsy]
    · simp only [px_x]; intro hEq; nlinarith [hsx]
  have hS8 : ∀ lab, Op.lineTo
      ⟨rect.x0 + rect.width, px_y rect 8 (rect.height / 56)⟩ ∉
      draw_state_var M (px_x rect 40 (rect.width / 88)) rect.y0
        (20 * (rect.height / 56) - 3 * (rect.height / 56)) lab
        (2 * ((rect.width / 88 + rect.height / 56) / 2))
        (10 * ((rect.width / 88 + rect.height / 56) / 2))
        (10 * ((rect.width / 88 + rect.height / 56) / 2))
        (30 * ((rect.width / 88 + rect.height / 56) / 2)) := by
    intro lab
    refine lineTo_not_mem_state_var M _ _ _ _ lab _ _ _ _ hbh
      (by positivity) ?_ ?_ ?_ ?_
    · simp only [px_y]; intro hEq; nlinarith [hsy]
    · simp only [px_y]; intro hEq; nlinarith [hsy]
    · simp only [px_y]; intro z hz1 hz2 hEq; nlinarith [hsy]
    · simp only [px_x]; intro hEq; nlinarith [hsx]
  have hS52 : ∀ lab, Op.lineTo
      ⟨rect.x0 + rect.width, px_y rect 52 (rect.height / 56)⟩ ∉
      draw_state_var M (px_x rect 40 (rect.width / 88)) rect.y0
        (20 * (rect.height / 56) - 3 * (rect.height / 56)) lab
        (2 * ((rect.width / 88 + rect.height / 56) / 2))
        (10 * ((rect.width / 88 + rect.height / 56) / 2))
        (10 * ((rect.width / 88 + rect.height / 56) / 2))
        (30 * ((rect.width / 88 + rect.height / 56) / 2)) := by
    intro lab
    refine lineTo_not_mem_state_var M _ _ _ _ lab _ _ _ _ hbh
      (by positivity) ?_ ?_ ?_ ?_
    · simp only [px_y]; intro hEq; nlinarith [hsy]
    · simp only [px_y]; intro hEq; nlinarith [hsy]
    · simp only [px_y]; intro z hz1 hz2 hEq; nlinarith [hsy]
    · simp only [px_x]; intro hEq; nlinarith [hsx]
  have hL2_8 : Op.lineTo
      ⟨rect.x0 + rect.width, px_y rect 8 (rect.height / 56)⟩ ∉
      draw_overlay_line rect (px_y rect 52 (rect.height / 56)) (1 * ((rect.width / 88 + rect.height / 56) / 2)) AUX_LINE_COLOR := by
    rw [lineTo_mem_overlay_line]
    intro hEq
    rw [Point.mk.injEq] at hEq
    obtain ⟨-, hy⟩ := hEq
    simp only [px_y] at hy
    nlinarith [hsy]
  have hL1_52 : Op.lineTo
      ⟨rect.x0 + rect.width, px_y rect 52 (rect.height / 56)⟩ ∉
      draw_overlay_line rect (px_y rect 8 (rect.height / 56)) (1 * ((rect.width / 88 + rect.height / 56) / 2)) AUX_LINE_COLOR := by
    rw [lineTo_mem_overlay_line]
    intro hEq
    rw [Point.mk.injEq] at hEq
    obtain ⟨-, hy⟩ := hEq
    simp only [px_y] at hy
    nlinarith [hsy]
  have hne1 : px_y rect 52 (rect.height / 56) ≠ px_y rect 8 (rect.height / 56) := by
    simp only [px_y]; intro hEq; nlinarith [hsy]
  have hne2 : px_y rect 8 (rect.height / 56) ≠ px_y rect 52 (rect.height / 56) := by
    simp only [px_y]; intro hEq; nlinarith [hsy]
  rcases u with _ | lu <;> rcases s with _ | ls <;>
    simp [hdef, List.mem_append, lineTo_mem_overlay_line, hU8, hU52, hS8, hS52,
      hL2_8, hL1_52, hne1, hne2, Point.mk.injEq]

/-- C1 counterexample.  A nucleic acid feature (reference 88×56, rendered
here at exactly that size) with a unit-of-information label but no
state-variable label: the claim says the first separator line (reference
y-offset 8) is drawn because one overlay label is present, but the renderer
draws no stroke across y=8 — while it does draw the second separator line
at y=52. -/
theorem naf_first_separator_cex :
    Op.lineTo ⟨88, 8⟩ ∉
      draw_entity_pool_aux_items constMeasure
        { x0 := 0, y0 := 0, width := 88, height := 56, center := ⟨44, 28⟩ }
        "nucleic acid feature" (some "u") none ∧
    Op.lineTo ⟨88, 52⟩ ∈
      draw_entity_pool_aux_items constMeasure
        { x0 := 0, y0 := 0, width := 88, height := 56, center := ⟨44, 28⟩ }
        "nucleic acid feature" (some "u") none := by
  have h := aux_table_nucleic_acid_feature constMeasure
    { x0 := 0, y0 := 0, width := 88, height := 56, center := ⟨44, 28⟩ }
    (some "u") none (by norm_num) (by norm_num)
  obtain ⟨h1, h2⟩ := h
  constructor
  · intro hmem
    have hpt : (⟨(0:ℚ) + 88, px_y
        { x0 := 0, y0 := 0, width := 88, height := 56, center := ⟨44, 28⟩ } 8
        ((56:ℚ) / 56)⟩ : Point) = ⟨88, 8⟩ := by
      norm_num [px_y]
    rw [hpt] at h1
    simpa using h1.mp hmem
  · have hpt : (⟨(0:ℚ) + 88, px_y
        { x0 := 0, y0 := 0, width := 88, height := 56, center := ⟨44, 28⟩ } 52
        ((56:ℚ) / 56)⟩ : Point) = ⟨88, 52⟩ := by
      norm_num [px_y]
    rw [hpt] at h2
    exact h2.mpr rfl

/-- C1 (amended).  Separator-line presence for the auxiliary overlay engine
(a line's stroke is the `lineTo` reaching the node's right edge at the
line's y): for simple chemical both separator lines are drawn iff a
unit-of-information label is present; for unspecified entity and
macromolecule the first line (reference y-offset 8) is drawn iff either
overlay label is present and the second (reference y-offset 52) iff the
unit-of-information label is present; for nucleic acid feature the FIRST
line is drawn iff the STATE-VARIABLE label is present (not "either label"),
and the second iff the unit-of-information label is present. -/
theorem aux_separator_line_table (M : TextMeasure) (rect : PixelRect)
    (u s : Option String) (hw : 0 < rect.width) (hh : 0 < rect.height) :
    ((Op.lineTo ⟨rect.x0 + rect.width, px_y rect 8 (rect.height / 48)⟩ ∈
        draw_entity_pool_aux_items M rect "simple chemical" u s ↔
        u.isSome = true) ∧
     (Op.lineTo ⟨rect.x0 + rect.width, px_y rect 52 (rect.height / 48)⟩ ∈
        draw_entity_pool_aux_items M rect "simple chemical" u s ↔
        u.isSome = true)) ∧
    ((Op.lineTo ⟨rect.x0 + rect.width, px_y rect 8 (rect.height / 32)⟩ ∈
        draw_entity_pool_aux_items M rect "unspecified entity" u s ↔
        (u.isSome = true ∨ s.isSome = true)) ∧
     (Op.lineTo ⟨rect.x0 + rect.width, px_y rect 52 (rect.height / 32)⟩ ∈
        draw_entity_pool_aux_items M rect "unspecified entity" u s ↔
        u.isSome = true)) ∧
    ((Op.lineTo ⟨rect.x0 + rect.width, px_y rect 8 (rect.height / 48)⟩ ∈
        draw_entity_pool_aux_items M rect "macromolecule" u s ↔
        (u.isSome = true ∨ s.isSome = true)) ∧
     (Op.lineTo ⟨rect.x0 + rect.width, px_y rect 52 (rect.height / 48)⟩ ∈
        draw_entity_pool_aux_items M rect "macromolecule" u s ↔
        u.isSome = true)) ∧
    ((Op.lineTo ⟨rect.x0 + rect.width, px_y rect 8 (rect.height / 56)⟩ ∈
        draw_entity_pool_aux_items M rect "nucleic acid feature" u s ↔
        s.isSome = true) ∧
     (Op.lineTo ⟨rect.x0 + rect.width, px_y rect 52 (rect.height / 56)⟩ ∈
        draw_entity_pool_aux_items M rect "nucleic acid feature" u s ↔
        u.isSome = true)) :=
  ⟨aux_table_simple_chemical M rect u s hw hh,
   aux_table_unspecified_entity M rect u s hw hh,
   aux_table_macromolecule M rect u s hw hh,
   aux_table_nucleic_acid_feature M rect u s hw hh⟩

/-- Closed instantiation of C1 at the macromolecule reference rectangle with
a unit-of-information label present. -/
theorem aux_separator_line_table_witness :
    Op.lineTo ⟨(0:ℚ) + 96,
        px_y { x0 := 0, y0 := 0, width := 96, height := 48, center := ⟨48, 24⟩ }
          8 ((48:ℚ) / 48)⟩ ∈
      draw_entity_pool_aux_items constMeasure
        { x0 := 0, y0 := 0, width := 96, height := 48, center := ⟨48, 24⟩ }
        "macromolecule" (some "i") none :=
  ((aux_separator_line_table constMeasure
    { x0 := 0, y0 := 0, width := 96, height := 48, center := ⟨48, 24⟩ }
    (some "i") none (by norm_num) (by norm_num)).2.2.1).1.mpr (Or.inl rfl)

/-! ## C9: determinism of the render pass over the paint-state machine -/

/-- Stack-blindness of an op list: it never pops a save frame it did not
itself push, so the ambient stack below it survives untouched, the resulting
paint does not depend on it, and the resolved trace is the same over any
ambient stack. -/
def SB (L : List Op) : Prop :=
  ∀ (p : Paint) (st st' : List Paint),
    execOps (p, st) L = ((execOps (p, st') L).1, st) ∧
    traceOps (p, st) L = traceOps (p, st') L

/-- Run from the default paint, the op list ends back at the default paint. -/
def RD (L : List Op) : Prop :=
  ∀ st : List Paint, (execOps (defaultPaint, st) L).1 = defaultPaint

lemma sb_nil : SB [] := fun _ _ _ => ⟨rfl, rfl⟩

lemma rd_nil : RD [] := fun _ => rfl

lemma sb_append {a b : List Op} (ha : SB a) (hb : SB b) : SB (a ++ b) := by
  intro p st st'
  obtain ⟨hae, hat⟩ := ha p st st'
  constructor
  · rw [execOps_append, execOps_append, hae]
    obtain ⟨hbe, _⟩ := hb (execOps (p, st') a).1 st (execOps (p, st') a).2
    rw [hbe]
  · rw [traceOps_append, traceOps_append, hae, hat]
    obtain ⟨_, hbt⟩ := hb (execOps (p, st') a).1 st (execOps (p, st') a).2
    rw [hbt]

lemma rd_append {a b : List Op} (ha : RD a) (hb : RD b) : RD (a ++ b) := by
  intro st
  rw [execOps_append]
  have h1 : execOps (defaultPaint, st) a =
      (defaultPaint, (execOps (defaultPaint, st) a).2) :=
    Prod.ext (ha st) rfl
  rw [h1]
  exact hb _

lemma sb_if {c : Prop} [Decidable c] {x y : List Op} (hx : SB x) (hy : SB y) :
    SB (if c then x else y) := by
  by_cases h : c
  · rw [if_pos h]; exact hx
  · rw [if_neg h]; exact hy

lemma rd_if {c : Prop} [Decidable c] {x y : List Op} (hx : RD x) (hy : RD y) :
    RD (if c then x else y) := by
  by_cases h : c
  · rw [if_pos h]; exact hx
  · rw [if_neg h]; exact hy

lemma sb_flatMap {α : Type} (f : α → List Op) (h : ∀ a, SB (f a)) :
    (l : List α) → SB (l.flatMap f)
  | [] => by simp only [List.flatMap_nil]; exact sb_nil
  | a :: tl => by
    simp only [List.flatMap_cons]
    exact sb_append (h a) (sb_flatMap f h tl)

lemma rd_flatMap {α : Type} (f : α → List Op) (h : ∀ a, RD (f a)) :
    (l : List α) → RD (l.flatMap f)
  | [] => by simp only [List.flatMap_nil]; exact rd_nil
  | a :: tl => by
    simp only [List.flatMap_cons]
    exact rd_append (h a) (rd_flatMap f h tl)

/-- `draw_text_at` with its constant outline guard resolved. -/
lemma draw_text_at_eq (x y : ℚ) (text : String) (font_px : ℚ) :
    draw_text_at x y text font_px =
    [.moveTo ⟨x, y⟩, .layoutPath text font_px, .setColor WHITE_COLOR,
     .setLineWidth TEXT_OUTLINE_WIDTH, .strokePreserve, .setColor BORDER_COLOR,
     .fill, .setLineWidth DEFAULT_LINE_WIDTH] := by
  unfold draw_text_at
  rw [if_pos (by norm_num [TEXT_OUTLINE_WIDTH])]
  rfl

lemma text_centered_nil {text : String} (M : TextMeasure) (center : Point)
    (font_px : ℚ) (h : strTrim text = "") :
    draw_text_centered M center text font_px = [] := by
  unfold draw_text_centered; rw [if_pos h]

lemma text_centered_ne {text : String} (M : TextMeasure) (center : Point)
    (font_px : ℚ) (h : ¬ strTrim text = "") :
    draw_text_centered M center text font_px =
    [.moveTo ⟨center.x - (M text font_px).1 / 2,
              center.y - (M text font_px).2 / 2⟩,
     .layoutPath text font_px, .setColor WHITE_COLOR,
     .setLineWidth TEXT_OUTLINE_WIDTH, .strokePreserve, .setColor BORDER_COLOR,
     .fill, .setLineWidth DEFAULT_LINE_WIDTH] := by
  unfold draw_text_centered; rw [if_neg h, draw_text_at_eq]

lemma text_bottom_nil {text : String} (M : TextMeasure) (rect : PixelRect)
    (font_px : ℚ) (h : strTrim text = "") :
    draw_text_bottom_centered M rect text font_px = [] := by
  unfold draw_text_bottom_centered; rw [if_pos h]

lemma text_bottom_ne {text : String} (M : TextMeasure) (rect : PixelRect)
    (font_px : ℚ) (h : ¬ strTrim text = "") :
    draw_text_bottom_centered M rect text font_px =
    [.moveTo ⟨rect.center.x - (M text font_px).1 / 2,
              rect.y0 + rect.height - (M text font_px).2 - 2⟩,
     .layoutPath text font_px, .setColor WHITE_COLOR,
     .setLineWidth TEXT_OUTLINE_WIDTH, .strokePreserve, .setColor BORDER_COLOR,
     .fill, .setLineWidth DEFAULT_LINE_WIDTH] := by
  unfold draw_text_bottom_centered; rw [if_neg h, draw_text_at_eq]

lemma sb_text_centered (M : TextMeasure) (center : Point) (text : String)
    (font_px : ℚ) : SB (draw_text_centered M center text font_px) := by
  by_cases h : strTrim text = ""
  · rw [text_centered_nil M center font_px h]; exact sb_nil
  · rw [text_centered_ne M center font_px h]
    exact fun p st st' => ⟨rfl, rfl⟩

lemma rd_text_centered (M : TextMeasure) (center : Point) (text : String)
    (font_px : ℚ) : RD (draw_text_centered M center text font_px) := by
  by_cases h : strTrim text = ""
  · rw [text_centered_nil M center font_px h]; exact rd_nil
  · rw [text_centered_ne M center font_px h]
    exact fun st => rfl

lemma sb_text_bottom (M : TextMeasure) (rect : PixelRect) (text : String)
    (font_px : ℚ) : SB (draw_text_bottom_centered M rect text font_px) := by
  by_cases h : strTrim text = ""
  · rw [text_bottom_nil M rect font_px h]; exact sb_nil
  · rw [text_bottom_ne M rect font_px h]
    exact fun p st st' => ⟨rfl, rfl⟩

lemma rd_text_bottom (M : TextMeasure) (rect : PixelRect) (text : String)
    (font_px : ℚ) : RD (draw_text_bottom_centered M rect text font_px) := by
  by_cases h : strTrim text = ""
  · rw [text_bottom_nil M rect font_px h]; exact rd_nil
  · rw [text_bottom_ne M rect font_px h]
    exact fun st => rfl

lemma sb_box (M : TextMeasure) (t : Transform) (bbox : BBox) (label : String)
    (font_px : ℚ) (hc : Bool) :
    SB (draw_box_bbox M t bbox label font_px hc) := by
  simp only [draw_box_bbox, draw_shape_with_clone, draw_clone_marker, path_rect]
  by_cases hl : strTrim label = ""
  · rw [text_centered_nil M _ _ hl]
    cases hc <;> exact fun p st st' => ⟨rfl, rfl⟩
  · rw [text_centered_ne M _ _ hl]
    cases hc <;> exact fun p st st' => ⟨rfl, rfl⟩

lemma rd_box (M : TextMeasure) (t : Transform) (bbox : BBox) (label : String)
    (font_px : ℚ) (hc : Bool) :
    RD (draw_box_bbox M t bbox label font_px hc) := by
  simp only [draw_box_bbox, draw_shape_with_clone, draw_clone_marker, path_rect]
  by_cases hl : strTrim label = ""
  · rw [text_centered_nil M _ _ hl]
    cases hc <;> exact fun st => rfl
  · rw [text_centered_ne M _ _ hl]
    cases hc <;> exact fun st => rfl

lemma sb_square (M : TextMeasure) (t : Transform) (bbox : BBox) (label : String)
    (font_px : ℚ) (hc : Bool) :
    SB (draw_square_bbox M t bbox label font_px hc) := by
  simp only [draw_square_bbox, draw_shape_with_clone, draw_clone_marker, path_rect]
  by_cases hl : strTrim label = ""
  · rw [text_centered_nil M _ _ hl]
    cases hc <;> exact fun p st st' => ⟨rfl, rfl⟩
  · rw [text_centered_ne M _ _ hl]
    cases hc <;> exact fun p st st' => ⟨rfl, rfl⟩

lemma rd_square (M : TextMeasure) (t : Transform) (bbox : BBox) (label : String)
    (font_px : ℚ) (hc : Bool) :
    RD (draw_square_bbox M t bbox label font_px hc) := by
  simp only [draw_square_bbox, draw_shape_with_clone, draw_clone_marker, path_rect]
  by_cases hl : strTrim label = ""
  · rw [text_centered_nil M _ _ hl]
    cases hc <;> exact fun st => rfl
  · rw [text_centered_ne M _ _ hl]
    cases hc <;> exact fun st => rfl

lemma sb_ellipse_filled (M : TextMeasure) (t : Transform) (bbox : BBox)
    (label : String) (font_px : ℚ) (fill : Color) :
    SB (draw_ellipse_bbox_filled M t bbox label font_px fill) := by
  simp only [draw_ellipse_bbox_filled, path_ellipse]
  by_cases hl : strTrim label = ""
  · rw [text_centered_nil M _ _ hl]
    exact fun p st st' => ⟨rfl, rfl⟩
  · rw [text_centered_ne M _ _ hl]
    exact fun p st st' => ⟨rfl, rfl⟩

lemma rd_ellipse_filled (M : TextMeasure) (t : Transform) (bbox : BBox)
    (label : String) (font_px : ℚ) (fill : Color) :
    RD (draw_ellipse_bbox_filled M t bbox label font_px fill) := by
  simp only [draw_ellipse_bbox_filled, path_ellipse]
  by_cases hl : strTrim label = ""
  · rw [text_centered_nil M _ _ hl]
    exact fun st => rfl
  · rw [text_centered_ne M _ _ hl]
    exact fun st => rfl

lemma sb_double_circle (M : TextMeasure) (t : Transform) (bbox : BBox)
    (label : String) (font_px : ℚ) :
    SB (draw_double_circle_bbox M t bbox label font_px) := by
  simp only [draw_double_circle_bbox]
  by_cases hl : strTrim label = ""
  · rw [text_centered_nil M _ _ hl]
    exact fun p st st' => ⟨rfl, rfl⟩
  · rw [text_centered_ne M _ _ hl]
    exact fun p st st' => ⟨rfl, rfl⟩

lemma rd_double_circle (M : TextMeasure) (t : Transform) (bbox : BBox)
    (label : String) (font_px : ℚ) :
    RD (draw_double_circle_bbox M t bbox label font_px) := by
  simp only [draw_double_circle_bbox]
  by_cases hl : strTrim label = ""
  · rw [text_centered_nil M _ _ hl]
    exact fun st => rfl
  · rw [text_centered_ne M _ _ hl]
    exact fun st => rfl

lemma sb_round_rect (M : TextMeasure) (t : Transform) (bbox : BBox)
    (label : String) (font_px : ℚ) (hc : Bool) :
    SB (draw_round_rect_bbox M t bbox label font_px hc) := by
  simp only [draw_round_rect_bbox, draw_shape_with_clone, draw_clone_marker,
    path_round_rect, path_round_rect_impl]
  by_cases hl : strTrim label = ""
  · rw [text_centered_nil M _ _ hl]
    cases hc <;> exact fun p st st' => ⟨rfl, rfl⟩
  · rw [text_centered_ne M _ _ hl]
    cases hc <;> exact fun p st st' => ⟨rfl, rfl⟩

lemma rd_round_rect (M : TextMeasure) (t : Transform) (bbox : BBox)
    (label : String) (font_px : ℚ) (hc : Bool) :
    RD (draw_round_rect_bbox M t bbox label font_px hc) := by
  simp only [draw_round_rect_bbox, draw_shape_with_clone, draw_clone_marker,
    path_round_rect, path_round_rect_impl]
  by_cases hl : strTrim label = ""
  · rw [text_centered_nil M _ _ hl]
    cases hc <;> exact fun st => rfl
  · rw [text_centered_ne M _ _ hl]
    cases hc <;> exact fun st => rfl

lemma sb_hexagon (M : TextMeasure) (t : Transform) (bbox : BBox) (label : String)
    (font_px : ℚ) (hc : Bool) :
    SB (draw_hexagon_bbox M t bbox label font_px hc) := by
  simp only [draw_hexagon_bbox, draw_shape_with_clone, draw_clone_marker, path_hexagon]
  by_cases hl : strTrim label = ""
  · rw [text_centered_nil M _ _ hl]
    cases hc <;> exact fun p st st' => ⟨rfl, rfl⟩
  · rw [text_centered_ne M _ _ hl]
    cases hc <;> exact fun p st st' => ⟨rfl, rfl⟩

lemma rd_hexagon (M : TextMeasure) (t : Transform) (bbox : BBox) (label : String)
    (font_px : ℚ) (hc : Bool) :
    RD (draw_hexagon_bbox M t bbox label font_px hc) := by
  simp only [draw_hexagon_bbox, draw_shape_with_clone, draw_clone_marker, path_hexagon]
  by_cases hl : strTrim label = ""
  · rw [text_centered_nil M _ _ hl]
    cases hc <;> exact fun st => rfl
  · rw [text_centered_ne M _ _ hl]
    cases hc <;> exact fun st => rfl

lemma sb_source_sink (t : Transform) (bbox : BBox) (hc : Bool) :
    SB (draw_source_sink_bbox t bbox hc) := by
  simp only [draw_source_sink_bbox, draw_clone_marker, path_ellipse]
  cases hc <;> exact fun p st st' => ⟨rfl, rfl⟩

lemma rd_source_sink (t : Transform) (bbox : BBox) (hc : Bool) :
    RD (draw_source_sink_bbox t bbox hc) := by
  simp only [draw_source_sink_bbox, draw_clone_marker, path_ellipse]
  cases hc <;> exact fun st => rfl

lemma sb_barrel (M : TextMeasure) (t : Transform) (bbox : BBox) (label : String)
    (font_px : ℚ) (hc : Bool) :
    SB (draw_barrel_bbox M t bbox label font_px hc) := by
  simp only [draw_barrel_bbox, draw_shape_with_clone, draw_clone_marker, path_barrel,
    quad_curve_to]
  by_cases hl : strTrim label = ""
  · rw [text_centered_nil M _ _ hl]
    cases hc <;> exact fun p st st' => ⟨rfl, rfl⟩
  · rw [text_centered_ne M _ _ hl]
    cases hc <;> exact fun p st st' => ⟨rfl, rfl⟩

lemma rd_barrel (M : TextMeasure) (t : Transform) (bbox : BBox) (label : String)
    (font_px : ℚ) (hc : Bool) :
    RD (draw_barrel_bbox M t bbox label font_px hc) := by
  simp only [draw_barrel_bbox, draw_shape_with_clone, draw_clone_marker, path_barrel,
    quad_curve_to]
  by_cases hl : strTrim label = ""
  · rw [text_centered_nil M _ _ hl]
    cases hc <;> exact fun st => rfl
  · rw [text_centered_ne M _ _ hl]
    cases hc <;> exact fun st => rfl

lemma sb_tag (M : TextMeasure) (t : Transform) (bbox : BBox) (label : String)
    (font_px : ℚ) (hc : Bool) :
    SB (draw_tag_bbox M t bbox label font_px hc) := by
  simp only [draw_tag_bbox, draw_shape_with_clone, draw_clone_marker, path_tag]
  by_cases hl : strTrim label = ""
  · rw [text_centered_nil M _ _ hl]
    cases hc <;> exact fun p st st' => ⟨rfl, rfl⟩
  · rw [text_centered_ne M _ _ hl]
    cases hc <;> exact fun p st st' => ⟨rfl, rfl⟩

lemma rd_tag (M : TextMeasure) (t : Transform) (bbox : BBox) (label : String)
    (font_px : ℚ) (hc : Bool) :
    RD (draw_tag_bbox M t bbox label font_px hc) := by
  simp only [draw_tag_bbox, draw_shape_with_clone, draw_clone_marker, path_tag]
  by_cases hl : strTrim label = ""
  · rw [text_centered_nil M _ _ hl]
    cases hc <;> exact fun st => rfl
  · rw [text_centered_ne M _ _ hl]
    cases hc <;> exact fun st => rfl

lemma sb_stadium (M : TextMeasure) (t : Transform) (bbox : BBox) (label : String)
    (font_px : ℚ) (hc : Bool) :
    SB (draw_stadium_bbox M t bbox label font_px hc) := by
  simp only [draw_stadium_bbox, draw_shape_with_clone, draw_clone_marker,
    path_round_rect_impl]
  by_cases hl : strTrim label = ""
  · rw [text_centered_nil M _ _ hl]
    cases hc <;> exact fun p st st' => ⟨rfl, rfl⟩
  · rw [text_centered_ne M _ _ hl]
    cases hc <;> exact fun p st st' => ⟨rfl, rfl⟩

lemma rd_stadium (M : TextMeasure) (t : Transform) (bbox : BBox) (label : String)
    (font_px : ℚ) (hc : Bool) :
    RD (draw_stadium_bbox M t bbox label font_px hc) := by
  simp only [draw_stadium_bbox, draw_shape_with_clone, draw_clone_marker,
    path_round_rect_impl]
  by_cases hl : strTrim label = ""
  · rw [text_centered_nil M _ _ hl]
    cases hc <;> exact fun st => rfl
  · rw [text_centered_ne M _ _ hl]
    cases hc <;> exact fun st => rfl

lemma sb_circle (M : TextMeasure) (t : Transform) (bbox : BBox) (label : String)
    (font_px : ℚ) :
    SB (draw_circle_bbox M t bbox label font_px) := by
  simp only [draw_circle_bbox]
  by_cases hl : strTrim label = ""
  · rw [text_centered_nil M _ _ hl]
    exact fun p st st' => ⟨rfl, rfl⟩
  · rw [text_centered_ne M _ _ hl]
    exact fun p st st' => ⟨rfl, rfl⟩

lemma rd_circle (M : TextMeasure) (t : Transform) (bbox : BBox) (label : String)
    (font_px : ℚ) :
    RD (draw_circle_bbox M t bbox label font_px) := by
  simp only [draw_circle_bbox]
  by_cases hl : strTrim label = ""
  · rw [text_centered_nil M _ _ hl]
    exact fun st => rfl
  · rw [text_centered_ne M _ _ hl]
    exact fun st => rfl

lemma sb_overlay_line (rect : PixelRect) (y lw : ℚ) (color : Color) :
    SB (draw_overlay_line rect y lw color) :=
  fun p st st' => ⟨rfl, rfl⟩

lemma rd_overlay_line (rect : PixelRect) (y lw : ℚ) (color : Color) :
    RD (draw_overlay_line rect y lw color) :=
  fun st => rfl

lemma sb_unit_info (M : TextMeasure) (x y height : ℚ) (label : String)
    (bw fpx pad : ℚ) : SB (draw_unit_info M x y height label bw fpx pad) := by
  simp only [draw_unit_info, path_round_rect_impl]
  by_cases hl : strTrim label = ""
  · rw [text_centered_nil M _ _ hl]
    exact fun p st st' => ⟨rfl, rfl⟩
  · rw [text_centered_ne M _ _ hl]
    exact fun p st st' => ⟨rfl, rfl⟩

lemma rd_unit_info (M : TextMeasure) (x y height : ℚ) (label : String)
    (bw fpx pad : ℚ) : RD (draw_unit_info M x y height label bw fpx pad) := by
  simp only [draw_unit_info, path_round_rect_impl]
  by_cases hl : strTrim label = ""
  · rw [text_centered_nil M _ _ hl]
    exact fun st => rfl
  · rw [text_centered_ne M _ _ hl]
    exact fun st => rfl

lemma sb_state_var (M : TextMeasure) (x y height : ℚ) (label : String)
    (bw fpx pad mw : ℚ) :
    SB (draw_state_var M x y height label bw fpx pad mw) := by
  simp only [draw_state_var, path_round_rect_impl]
  by_cases hl : strTrim label = ""
  · rw [text_centered_nil M _ _ hl]
    exact fun p st st' => ⟨rfl, rfl⟩
  · rw [text_centered_ne M _ _ hl]
    exact fun p st st' => ⟨rfl, rfl⟩

lemma rd_state_var (M : TextMeasure) (x y height : ℚ) (label : String)
    (bw fpx pad mw : ℚ) :
    RD (draw_state_var M x y height label bw fpx pad mw) := by
  simp only [draw_state_var, path_round_rect_impl]
  by_cases hl : strTrim label = ""
  · rw [text_centered_nil M _ _ hl]
    exact fun st => rfl
  · rw [text_centered_ne M _ _ hl]
    exact fun st => rfl

set_option maxHeartbeats 2000000 in
lemma sb_base_shape (M : TextMeasure) (rect : PixelRect) (cn : String)
    (label : String) (font_px : ℚ) (hc : Bool) (fc : Option Color) (bw : ℚ) :
    SB (draw_entity_pool_base_shape M rect cn label font_px hc fc bw) := by
  unfold draw_entity_pool_base_shape
  split <;>
  · simp only [draw_shape_with_clone, draw_clone_marker, path_ellipse,
      path_round_rect_impl, path_round_bottom_rect_impl, path_cut_rect,
      path_concave_hexagon, path_rect]
    by_cases hl : strTrim label = ""
    · rw [text_centered_nil M _ _ hl]
      cases hc <;> cases fc <;> exact fun p st st' => ⟨rfl, rfl⟩
    · rw [text_centered_ne M _ _ hl]
      cases hc <;> cases fc <;> exact fun p st st' => ⟨rfl, rfl⟩

set_option maxHeartbeats 2000000 in
lemma rd_base_shape (M : TextMeasure) (rect : PixelRect) (cn : String)
    (label : String) (font_px : ℚ) (hc : Bool) (fc : Option Color) (bw : ℚ) :
    RD (draw_entity_pool_base_shape M rect cn label font_px hc fc bw) := by
  unfold draw_entity_pool_base_shape
  split <;>
  · simp only [draw_shape_with_clone, draw_clone_marker, path_ellipse,
      path_round_rect_impl, path_round_bottom_rect_impl, path_cut_rect,
      path_concave_hexagon, path_rect]
    by_cases hl : strTrim label = ""
    · rw [text_centered_nil M _ _ hl]
      cases hc <;> cases fc <;> exact fun st => rfl
    · rw [text_centered_ne M _ _ hl]
      cases hc <;> cases fc <;> exact fun st => rfl

set_option maxHeartbeats 1000000 in
lemma sb_aux_items (M : TextMeasure) (rect : PixelRect) (cn : String)
    (u s : Option String) : SB (draw_entity_pool_aux_items M rect cn u s) := by
  simp only [draw_entity_pool_aux_items]
  split
  · cases u <;> cases s <;>
      first
        | exact sb_append (sb_append sb_nil sb_nil) sb_nil
        | exact sb_append (sb_append (sb_overlay_line _ _ _ _) (sb_overlay_line _ _ _ _)) (sb_unit_info _ _ _ _ _ _ _ _)
  · cases u <;> cases s <;>
      first
        | exact sb_append (sb_append (sb_append sb_nil sb_nil) sb_nil) sb_nil
        | exact sb_append (sb_append (sb_append (sb_overlay_line _ _ _ _) sb_nil) sb_nil) (sb_state_var _ _ _ _ _ _ _ _ _)
        | exact sb_append (sb_append (sb_append (sb_overlay_line _ _ _ _) (sb_overlay_line _ _ _ _)) (sb_unit_info _ _ _ _ _ _ _ _)) sb_nil
        | exact sb_append (sb_append (sb_append (sb_overlay_line _ _ _ _) (sb_overlay_line _ _ _ _)) (sb_unit_info _ _ _ _ _ _ _ _)) (sb_state_var _ _ _ _ _ _ _ _ _)
  · cases u <;> cases s <;>
      first
        | exact sb_append (sb_append (sb_append sb_nil sb_nil) sb_nil) sb_nil
        | exact sb_append (sb_append (sb_append (sb_overlay_line _ _ _ _) sb_nil) sb_nil) (sb_state_var _ _ _ _ _ _ _ _ _)
        | exact sb_append (sb_append (sb_append (sb_overlay_line _ _ _ _) (sb_overlay_line _ _ _ _)) (sb_unit_info _ _ _ _ _ _ _ _)) sb_nil
        | exact sb_append (sb_append (sb_append (sb_overlay_line _ _ _ _) (sb_overlay_line _ _ _ _)) (sb_unit_info _ _ _ _ _ _ _ _)) (sb_state_var _ _ _ _ _ _ _ _ _)
  · cases u <;> cases s <;>
      first
        | exact sb_append (sb_append (sb_append sb_nil sb_nil) sb_nil) sb_nil
        | exact sb_append (sb_append (sb_append (sb_overlay_line _ _ _ _) sb_nil) sb_nil) (sb_state_var _ _ _ _ _ _ _ _ _)
        | exact sb_append (sb_append (sb_append sb_nil (sb_overlay_line _ _ _ _)) (sb_unit_info _ _ _ _ _ _ _ _)) sb_nil
        | exact sb_append (sb_append (sb_append (sb_overlay_line _ _ _ _) (sb_overlay_line _ _ _ _)) (sb_unit_info _ _ _ _ _ _ _ _)) (sb_state_var _ _ _ _ _ _ _ _ _)
  · cases u <;> cases s <;>
      first
        | exact sb_append (sb_append sb_nil sb_nil) sb_nil
        | exact sb_append (sb_append (sb_overlay_line _ _ _ _) sb_nil) (sb_state_var _ _ _ _ _ _ _ _ _)
        | exact sb_append (sb_append (sb_overlay_line _ _ _ _) (sb_unit_info _ _ _ _ _ _ _ _)) sb_nil
        | exact sb_append (sb_append (sb_overlay_line _ _ _ _) (sb_unit_info _ _ _ _ _ _ _ _)) (sb_state_var _ _ _ _ _ _ _ _ _)
  · cases u <;> cases s <;>
      first
        | exact sb_append (sb_append sb_nil sb_nil) sb_nil
        | exact sb_append (sb_append (sb_overlay_line _ _ _ _) (sb_overlay_line _ _ _ _)) (sb_unit_info _ _ _ _ _ _ _ _)
  · exact sb_nil

set_option maxHeartbeats 1000000 in
lemma rd_aux_items (M : TextMeasure) (rect : PixelRect) (cn : String)
    (u s : Option String) : RD (draw_entity_pool_aux_items M rect cn u s) := by
  simp only [draw_entity_pool_aux_items]
  split
  · cases u <;> cases s <;>
      first
        | exact rd_append (rd_append rd_nil rd_nil) rd_nil
        | exact rd_append (rd_append (rd_overlay_line _ _ _ _) (rd_overlay_line _ _ _ _)) (rd_unit_info _ _ _ _ _ _ _ _)
  · cases u <;> cases s <;>
      first
        | exact rd_append (rd_append (rd_append rd_nil rd_nil) rd_nil) rd_nil
        | exact rd_append (rd_append (rd_append (rd_overlay_line _ _ _ _) rd_nil) rd_nil) (rd_state_var _ _ _ _ _ _ _ _ _)
        | exact rd_append (rd_append (rd_append (rd_overlay_line _ _ _ _) (rd_overlay_line _ _ _ _)) (rd_unit_info _ _ _ _ _ _ _ _)) rd_nil
        | exact rd_append (rd_append (rd_append (rd_overlay_line _ _ _ _) (rd_overlay_line _ _ _ _)) (rd_unit_info _ _ _ _ _ _ _ _)) (rd_state_var _ _ _ _ _ _ _ _ _)
  · cases u <;> cases s <;>
      first
        | exact rd_append (rd_append (rd_append rd_nil rd_nil) rd_nil) rd_nil
        | exact rd_append (rd_append (rd_append (rd_overlay_line _ _ _ _) rd_nil) rd_nil) (rd_state_var _ _ _ _ _ _ _ _ _)
        | exact rd_append (rd_append (rd_append (rd_overlay_line _ _ _ _) (rd_overlay_line _ _ _ _)) (rd_unit_info _ _ _ _ _ _ _ _)) rd_nil
        | exact rd_append (rd_append (rd_append (rd_overlay_line _ _ _ _) (rd_overlay_line _ _ _ _)) (rd_unit_info _ _ _ _ _ _ _ _)) (rd_state_var _ _ _ _ _ _ _ _ _)
  · cases u <;> cases s <;>
      first
        | exact rd_append (rd_append (rd_append rd_nil rd_nil) rd_nil) rd_nil
        | exact rd_append (rd_append (rd_append (rd_overlay_line _ _ _ _) rd_nil) rd_nil) (rd_state_var _ _ _ _ _ _ _ _ _)
        | exact rd_append (rd_append (rd_append rd_nil (rd_overlay_line _ _ _ _)) (rd_unit_info _ _ _ _ _ _ _ _)) rd_nil
        | exact rd_append (rd_append (rd_append (rd_overlay_line _ _ _ _) (rd_overlay_line _ _ _ _)) (rd_unit_info _ _ _ _ _ _ _ _)) (rd_state_var _ _ _ _ _ _ _ _ _)
  · cases u <;> cases s <;>
      first
        | exact rd_append (rd_append rd_nil rd_nil) rd_nil
        | exact rd_append (rd_append (rd_overlay_line _ _ _ _) rd_nil) (rd_state_var _ _ _ _ _ _ _ _ _)
        | exact rd_append (rd_append (rd_overlay_line _ _ _ _) (rd_unit_info _ _ _ _ _ _ _ _)) rd_nil
        | exact rd_append (rd_append (rd_overlay_line _ _ _ _) (rd_unit_info _ _ _ _ _ _ _ _)) (rd_state_var _ _ _ _ _ _ _ _ _)
  · cases u <;> cases s <;>
      first
        | exact rd_append (rd_append rd_nil rd_nil) rd_nil
        | exact rd_append (rd_append (rd_overlay_line _ _ _ _) (rd_overlay_line _ _ _ _)) (rd_unit_info _ _ _ _ _ _ _ _)
  · exact rd_nil

set_option maxHeartbeats 1000000 in
lemma sb_entity_pool_node (M : TextMeasure) (t : Transform) (bbox : BBox)
    (label : String) (font_px : ℚ) (cn : String) (im hc : Bool)
    (u s : Option String) :
    SB (draw_entity_pool_node M t bbox label font_px cn im hc u s) := by
  simp only [draw_entity_pool_node]
  cases im <;> cases hg : ghost_offset_for cn <;>
    first
      | exact sb_append (sb_append sb_nil (sb_base_shape _ _ _ _ _ _ _ _)) (sb_aux_items _ _ _ _ _)
      | exact sb_append (sb_append (sb_base_shape _ _ _ _ _ _ _ _) (sb_base_shape _ _ _ _ _ _ _ _)) (sb_aux_items _ _ _ _ _)

set_option maxHeartbeats 1000000 in
lemma rd_entity_pool_node (M : TextMeasure) (t : Transform) (bbox : BBox)
    (label : String) (font_px : ℚ) (cn : String) (im hc : Bool)
    (u s : Option String) :
    RD (draw_entity_pool_node M t bbox label font_px cn im hc u s) := by
  simp only [draw_entity_pool_node]
  cases im <;> cases hg : ghost_offset_for cn <;>
    first
      | exact rd_append (rd_append rd_nil (rd_base_shape _ _ _ _ _ _ _ _)) (rd_aux_items _ _ _ _ _)
      | exact rd_append (rd_append (rd_base_shape _ _ _ _ _ _ _ _) (rd_base_shape _ _ _ _ _ _ _ _)) (rd_aux_items _ _ _ _ _)

lemma sb_orientation_marker (t : Transform) (bbox : BBox) (o : String)
    (clen : ℚ) : SB (draw_orientation_marker t bbox o clen) := by
  unfold draw_orientation_marker
  split <;> exact fun p st st' => ⟨rfl, rfl⟩

lemma rd_orientation_marker (t : Transform) (bbox : BBox) (o : String)
    (clen : ℚ) : RD (draw_orientation_marker t bbox o clen) := by
  unfold draw_orientation_marker
  split <;> exact fun st => rfl

lemma sb_open_circle (c : Point) (r : ℚ) : SB (draw_open_circle c r) :=
  fun p st st' => ⟨rfl, rfl⟩

lemma rd_open_circle (c : Point) (r : ℚ) : RD (draw_open_circle c r) :=
  fun st => rfl

lemma sb_filled_circle (c : Point) (r : ℚ) : SB (draw_filled_circle c r) :=
  fun p st st' => ⟨rfl, rfl⟩

lemma rd_filled_circle (c : Point) (r : ℚ) : RD (draw_filled_circle c r) :=
  fun st => rfl

lemma sb_tangent (e q : Point) (r : ℚ) : SB (draw_filled_circle_tangent e q r) := by
  unfold draw_filled_circle_tangent
  exact sb_if (sb_filled_circle _ _) (fun p st st' => ⟨rfl, rfl⟩)

lemma rd_tangent (e q : Point) (r : ℚ) : RD (draw_filled_circle_tangent e q r) := by
  unfold draw_filled_circle_tangent
  exact rd_if (rd_filled_circle _ _) (fun st => rfl)

lemma sb_open_triangle (e q : Point) (s : ℚ) : SB (draw_open_triangle e q s) := by
  unfold draw_open_triangle
  exact sb_if sb_nil (fun p st st' => ⟨rfl, rfl⟩)

lemma rd_open_triangle (e q : Point) (s : ℚ) : RD (draw_open_triangle e q s) := by
  unfold draw_open_triangle
  exact rd_if rd_nil (fun st => rfl)

lemma sb_open_triangle_opaque (e q : Point) (s : ℚ) :
    SB ( draw_open_triangle_opaque e q s) := by
  unfold draw_open_triangle_opaque
  exact sb_if sb_nil (fun p st st' => ⟨rfl, rfl⟩)

lemma rd_open_triangle_opaque (e q : Point) (s : ℚ) :
    RD ( draw_open_triangle_opaque e q s) := by
  unfold draw_open_triangle_opaque
  exact rd_if rd_nil (fun st => rfl)

lemma sb_filled_triangle (e q : Point) (s : ℚ) :
    SB (draw_filled_triangle e q s) := by
  unfold draw_filled_triangle
  exact sb_if sb_nil (fun p st st' => ⟨rfl, rfl⟩)

lemma rd_filled_triangle (e q : Point) (s : ℚ) :
    RD (draw_filled_triangle e q s) := by
  unfold draw_filled_triangle
  exact rd_if rd_nil (fun st => rfl)

lemma sb_inhibition_bar (e q : Point) (len off : ℚ) :
    SB (draw_inhibition_bar e q len off) := by
  unfold draw_inhibition_bar
  exact sb_if sb_nil (fun p st st' => ⟨rfl, rfl⟩)

lemma rd_inhibition_bar (e q : Point) (len off : ℚ) :
    RD (draw_inhibition_bar e q len off) := by
  unfold draw_inhibition_bar
  exact rd_if rd_nil (fun st => rfl)

lemma sb_segment_ops : (ps : List Point) → SB (segment_ops ps)
  | [] => by simp only [segment_ops]; exact sb_nil
  | [a] => by simp only [segment_ops]; exact sb_nil
  | a :: b :: rest => by
      simp only [segment_ops]
      exact sb_append (fun p st st' => ⟨rfl, rfl⟩) (sb_segment_ops (b :: rest))

lemma rd_segment_ops : (ps : List Point) → RD (segment_ops ps)
  | [] => by simp only [segment_ops]; exact rd_nil
  | [a] => by simp only [segment_ops]; exact rd_nil
  | a :: b :: rest => by
      simp only [segment_ops]
      exact rd_append (fun st => rfl) (rd_segment_ops (b :: rest))

lemma sb_arc_dec (cn : String) (e q : Point) (a b o : ℚ) :
    SB (arc_decoration_ops cn e q a b o) := by
  unfold arc_decoration_ops
  split <;> first
    | exact sb_open_triangle _ _ _
    | exact sb_open_triangle_opaque _ _ _
    | exact sb_filled_triangle _ _ _
    | exact sb_inhibition_bar _ _ _ _
    | exact sb_append (sb_inhibition_bar _ _ _ _) (sb_inhibition_bar _ _ _ _)
    | exact sb_append (sb_inhibition_bar _ _ _ _) ( sb_open_triangle_opaque _ _ _)
    | exact sb_tangent _ _ _
    | exact sb_open_circle _ _
    | exact sb_nil

lemma rd_arc_dec (cn : String) (e q : Point) (a b o : ℚ) :
    RD (arc_decoration_ops cn e q a b o) := by
  unfold arc_decoration_ops
  split <;> first
    | exact rd_open_triangle _ _ _
    | exact rd_open_triangle_opaque _ _ _
    | exact rd_filled_triangle _ _ _
    | exact rd_inhibition_bar _ _ _ _
    | exact rd_append (rd_inhibition_bar _ _ _ _) (rd_inhibition_bar _ _ _ _)
    | exact rd_append (rd_inhibition_bar _ _ _ _) ( rd_open_triangle_opaque _ _ _)
    | exact rd_tangent _ _ _
    | exact rd_open_circle _ _
    | exact rd_nil

lemma sb_draw_arc (points : List Point) (cn : String) (a b o : ℚ) :
    SB (draw_arc points cn a b o) := by
  unfold draw_arc
  exact sb_if sb_nil
    (sb_append (sb_append (fun p st st' => ⟨rfl, rfl⟩) (sb_segment_ops points))
      (sb_arc_dec _ _ _ _ _ _))

lemma rd_draw_arc (points : List Point) (cn : String) (a b o : ℚ) :
    RD (draw_arc points cn a b o) := by
  unfold draw_arc
  exact rd_if rd_nil
    (rd_append (rd_append (fun st => rfl) (rd_segment_ops points))
      (rd_arc_dec _ _ _ _ _ _))

set_option maxHeartbeats 1000000 in
lemma sb_glyph_shape_ops (M : TextMeasure) (t : Transform) (bbox : BBox)
    (lab : String) (fpx : ℚ) (cn cb : String) (im hc : Bool)
    (u s : Option String) :
    SB (glyph_shape_ops M t bbox lab fpx cn cb im hc u s) := by
  unfold glyph_shape_ops
  split
  · exact sb_hexagon _ _ _ _ _ _
  · exact sb_hexagon _ _ _ _ _ _
  · exact sb_entity_pool_node _ _ _ _ _ _ _ _ _ _
  · exact sb_entity_pool_node _ _ _ _ _ _ _ _ _ _
  · exact sb_entity_pool_node _ _ _ _ _ _ _ _ _ _
  · exact sb_entity_pool_node _ _ _ _ _ _ _ _ _ _
  · exact sb_entity_pool_node _ _ _ _ _ _ _ _ _ _
  · exact sb_entity_pool_node _ _ _ _ _ _ _ _ _ _
  · exact sb_entity_pool_node _ _ _ _ _ _ _ _ _ _
  · exact sb_entity_pool_node _ _ _ _ _ _ _ _ _ _
  · exact sb_entity_pool_node _ _ _ _ _ _ _ _ _ _
  · exact sb_entity_pool_node _ _ _ _ _ _ _ _ _ _
  · exact sb_source_sink _ _ _
  · exact sb_barrel _ _ _ _ _ _
  · exact sb_tag _ _ _ _ _ _
  · exact sb_ellipse_filled _ _ _ _ _ _
  · exact sb_double_circle _ _ _ _ _
  · exact sb_append (sb_square _ _ _ _ _ _)
      (sb_if (fun p st st2 => ⟨rfl, rfl⟩) sb_nil)
  · exact sb_append (sb_square _ _ _ _ _ _)
      (sb_if (fun p st st2 => ⟨rfl, rfl⟩) sb_nil)
  · exact sb_append (sb_square _ _ _ _ _ _)
      (sb_if (fun p st st2 => ⟨rfl, rfl⟩) sb_nil)
  · exact sb_round_rect _ _ _ _ _ _
  · exact sb_stadium _ _ _ _ _ _
  · exact sb_append (sb_circle _ _ _ _ _)
      (sb_if (fun p st st2 => ⟨rfl, rfl⟩) sb_nil)
  · exact sb_append (sb_circle _ _ _ _ _)
      (sb_if (fun p st st2 => ⟨rfl, rfl⟩) sb_nil)
  · exact sb_append (sb_circle _ _ _ _ _)
      (sb_if (fun p st st2 => ⟨rfl, rfl⟩) sb_nil)
  · exact sb_box _ _ _ _ _ _

set_option maxHeartbeats 1000000 in
lemma rd_glyph_shape_ops (M : TextMeasure) (t : Transform) (bbox : BBox)
    (lab : String) (fpx : ℚ) (cn cb : String) (im hc : Bool)
    (u s : Option String) :
    RD (glyph_shape_ops M t bbox lab fpx cn cb im hc u s) := by
  unfold glyph_shape_ops
  split
  · exact rd_hexagon _ _ _ _ _ _
  · exact rd_hexagon _ _ _ _ _ _
  · exact rd_entity_pool_node _ _ _ _ _ _ _ _ _ _
  · exact rd_entity_pool_node _ _ _ _ _ _ _ _ _ _
  · exact rd_entity_pool_node _ _ _ _ _ _ _ _ _ _
  · exact rd_entity_pool_node _ _ _ _ _ _ _ _ _ _
  · exact rd_entity_pool_node _ _ _ _ _ _ _ _ _ _
  · exact rd_entity_pool_node _ _ _ _ _ _ _ _ _ _
  · exact rd_entity_pool_node _ _ _ _ _ _ _ _ _ _
  · exact rd_entity_pool_node _ _ _ _ _ _ _ _ _ _
  · exact rd_entity_pool_node _ _ _ _ _ _ _ _ _ _
  · exact rd_entity_pool_node _ _ _ _ _ _ _ _ _ _
  · exact rd_source_sink _ _ _
  · exact rd_barrel _ _ _ _ _ _
  · exact rd_tag _ _ _ _ _ _
  · exact rd_ellipse_filled _ _ _ _ _ _
  · exact rd_double_circle _ _ _ _ _
  · exact rd_append (rd_square _ _ _ _ _ _)
      (rd_if (fun st => rfl) rd_nil)
  · exact rd_append (rd_square _ _ _ _ _ _)
      (rd_if (fun st => rfl) rd_nil)
  · exact rd_append (rd_square _ _ _ _ _ _)
      (rd_if (fun st => rfl) rd_nil)
  · exact rd_round_rect _ _ _ _ _ _
  · exact rd_stadium _ _ _ _ _ _
  · exact rd_append (rd_circle _ _ _ _ _)
      (rd_if (fun st => rfl) rd_nil)
  · exact rd_append (rd_circle _ _ _ _ _)
      (rd_if (fun st => rfl) rd_nil)
  · exact rd_append (rd_circle _ _ _ _ _)
      (rd_if (fun st => rfl) rd_nil)
  · exact rd_box _ _ _ _ _ _

lemma sb_render_aux_glyph (M : TextMeasure) (t : Transform) (sc : Bool)
    (g : Glyph) : SB (render_aux_glyph M t sc g) := by
  unfold render_aux_glyph
  cases hb : g.bbox
  · exact sb_nil
  · dsimp only
    split
    · exact sb_round_rect _ _ _ _ _ _
    · exact sb_stadium _ _ _ _ _ _
    · exact sb_nil

lemma rd_render_aux_glyph (M : TextMeasure) (t : Transform) (sc : Bool)
    (g : Glyph) : RD (render_aux_glyph M t sc g) := by
  unfold render_aux_glyph
  cases hb : g.bbox
  · exact rd_nil
  · dsimp only
    split
    · exact rd_round_rect _ _ _ _ _ _
    · exact rd_stadium _ _ _ _ _ _
    · exact rd_nil

mutual
lemma sbr_tree (M : TextMeasure) (t : Transform) (sc : Bool) (t0 : GTree) :
    SB (render_glyph_tree M t sc t0) ∧ RD (render_glyph_tree M t sc t0) :=
  match t0 with
  | .node g children => by
    have hrec := sbr_forest M t sc children
    simp only [render_glyph_tree]
    cases hb : g.bbox with
    | none => exact ⟨sb_nil, rd_nil⟩
    | some bb =>
      dsimp only
      cases ho : effective_orientation g.orientation g.class_name with
      | none =>
        exact ⟨sb_append (sb_append (sb_append
            (sb_glyph_shape_ops _ _ _ _ _ _ _ _ _ _ _) sb_nil)
            (sb_if (sb_text_bottom _ _ _ _) sb_nil)) hrec.1,
          rd_append (rd_append (rd_append
            (rd_glyph_shape_ops _ _ _ _ _ _ _ _ _ _ _) rd_nil)
            (rd_if (rd_text_bottom _ _ _ _) rd_nil)) hrec.2⟩
      | some o =>
        exact ⟨sb_append (sb_append (sb_append
            (sb_glyph_shape_ops _ _ _ _ _ _ _ _ _ _ _)
            (sb_orientation_marker _ _ _ _))
            (sb_if (sb_text_bottom _ _ _ _) sb_nil)) hrec.1,
          rd_append (rd_append (rd_append
            (rd_glyph_shape_ops _ _ _ _ _ _ _ _ _ _ _)
            (rd_orientation_marker _ _ _ _))
            (rd_if (rd_text_bottom _ _ _ _) rd_nil)) hrec.2⟩
termination_by structural t0

lemma sbr_forest (M : TextMeasure) (t : Transform) (sc : Bool) (f0 : GForest) :
    SB (render_structural_children M t sc f0) ∧
    RD (render_structural_children M t sc f0) :=
  match f0 with
  | .nil => by
    simp only [render_structural_children]
    exact ⟨sb_nil, rd_nil⟩
  | .cons c rest => by
    have h1 := sbr_tree M t sc c
    have h2 := sbr_forest M t sc rest
    simp only [render_structural_children]
    exact ⟨sb_append (sb_if sb_nil h1.1) h2.1,
           rd_append (rd_if rd_nil h1.2) h2.2⟩
termination_by structural f0
end

lemma sbr_roots (M : TextMeasure) (t : Transform) (sc : Bool) (f : GForest) :
    SB (render_roots M t sc f) ∧ RD (render_roots M t sc f) :=
  match f with
  | .nil => by
    simp only [render_roots]
    exact ⟨sb_nil, rd_nil⟩
  | .cons c rest => by
    have h1 := sbr_tree M t sc c
    have h2 := sbr_roots M t sc rest
    simp only [render_roots]
    exact ⟨sb_append h1.1 h2.1, rd_append h1.2 h2.2⟩
termination_by structural f

lemma sbr_render_sbgnml (M : TextMeasure) (t : Transform) (roots : GForest)
    (arcs : List Arc) (sc : Bool) :
    SB (render_sbgnml M t roots arcs sc) ∧
    RD (render_sbgnml M t roots arcs sc) := by
  simp only [render_sbgnml]
  exact ⟨sb_append (sb_append (sbr_roots M t sc roots).1
      (sb_flatMap _ (fun g => sb_render_aux_glyph M t sc g) _))
      (sb_flatMap _ (fun a => sb_draw_arc _ _ _ _ _) _),
    rd_append (rd_append (sbr_roots M t sc roots).2
      (rd_flatMap _ (fun g => rd_render_aux_glyph M t sc g) _))
      (rd_flatMap _ (fun a => rd_draw_arc _ _ _ _ _) _)⟩

/-- C9.  The render pass is deterministic and styling-state clean: over the
paint-state machine of the cairo context (current color / line width plus
the save/restore stack), running `setup_context` followed by the whole
`render_sbgnml` op stream from any two initial paints and save stacks
resolves to the identical surface trace, and the render stream itself,
started at the default paint, ends back at the default paint with the save
stack unchanged — no styling state leaks from one pass into the next. -/
theorem render_pass_trace_deterministic (M : TextMeasure) (t : Transform)
    (roots : GForest) (arcs : List Arc) (sc : Bool) (p1 p2 : Paint)
    (st1 st2 : List Paint) :
    traceOps (p1, st1) (setup_context ++ render_sbgnml M t roots arcs sc) =
      traceOps (p2, st2) (setup_context ++ render_sbgnml M t roots arcs sc) ∧
    execOps (defaultPaint, st1) (render_sbgnml M t roots arcs sc) =
      (defaultPaint, st1) := by
  obtain ⟨hsb, hrd⟩ := sbr_render_sbgnml M t roots arcs sc
  constructor
  · rw [traceOps_append, traceOps_append]
    have h1 : execOps (p1, st1) setup_context = (defaultPaint, st1) := rfl
    have h2 : execOps (p2, st2) setup_context = (defaultPaint, st2) := rfl
    have hs1 : traceOps (p1, st1) setup_context =
        [TraceEntry.paintE WHITE_COLOR,
         TraceEntry.surfaceE Op.setLineCapSquare] := rfl
    have hs2 : traceOps (p2, st2) setup_context =
        [TraceEntry.paintE WHITE_COLOR,
         TraceEntry.surfaceE Op.setLineCapSquare] := rfl
    rw [h1, h2, hs1, hs2, (hsb defaultPaint st1 st2).2]
  · have he := (hsb defaultPaint st1 st1).1
    rw [he, hrd st1]

end RenderSbgn
